import Mathlib

/-!
Verification of the gotesla Powerwall vitals decoder and token utilities.

Shallow embedding of the decoding logic of `powerwall.go` (`GetVitals`,
`GetGridStatus`) and of the token validity check of `gotesla.go`
(`CheckToken` / `TokenTimes`), together with proofs of the behavioural
claims about them.

Modelling conventions:
* Protobuf `double` payloads are modelled as `Rat`.  The decoder only ever
  copies these values from the wire structure into record fields (it never
  computes with them), so any value domain with decidable equality is a
  faithful model of the data flow.
* Go `int`/`int64`/`int32` are modelled as `Int`; `uint64`/`uint32` as
  `Nat`.  Where a machine-arithmetic overflow could change behaviour
  (the `int64` addition inside `TokenTimes`) the twos-complement
  wraparound is modelled explicitly (`int64wrap`).
* Logging via `fmt.Printf` inside the decode loop is modelled by returning
  the list of emitted messages alongside the result.
* The `proto.Unmarshal` call and the HTTP fetch are third-party or
  effectful steps; they are passed in as function parameters, and the
  claims about them are stated relative to their outcome (exactly as
  `GetVitals` branches on them).
-/

namespace Gotesla

/-! ## Wire data model (tesla.proto, as used by `GetVitals`) -/

/-- The `oneof value` payload of a `DeviceVital` protobuf message:
`int64 intValue = 3; double floatValue = 4; string stringValue = 5;
bool boolValue = 6`, or unset. -/
inductive VitalValue where
  | unset
  | intValue (v : Int)
  | floatValue (v : Rat)
  | stringValue (v : String)
  | boolValue (v : Bool)
  deriving DecidableEq, Repr, Inhabited

/-- A `DeviceVital` protobuf message: `optional string name = 1` plus the
value oneof.  `GetVitals` dereferences `*vital.Name` unconditionally, so the
name is modelled as present. -/
structure DeviceVital where
  name : String
  value : VitalValue
  deriving DecidableEq, Repr, Inhabited

/-- Generated-code accessor `GetFloatValue`: the payload if the oneof holds
the `floatValue` arm, and the zero value otherwise. -/
def DeviceVital.getFloatValue (v : DeviceVital) : Rat :=
  match v.value with
  | .floatValue f => f
  | _ => 0

/-- Generated-code accessor `GetStringValue`. -/
def DeviceVital.getStringValue (v : DeviceVital) : String :=
  match v.value with
  | .stringValue s => s
  | _ => ""

/-- Generated-code accessor `GetBoolValue`. -/
def DeviceVital.getBoolValue (v : DeviceVital) : Bool :=
  match v.value with
  | .boolValue b => b
  | _ => false

/-- Protobuf wrapper message `StringValue { string value = 1 }`. -/
structure StringValue where
  value : String
  deriving DecidableEq, Repr, Inhabited

/-- The message `google.protobuf.Timestamp`, of which `GetVitals` reads
only the seconds component (`GetSeconds`). -/
structure Timestamp where
  seconds : Int
  deriving DecidableEq, Repr, Inhabited

/-- Message `PVInverterAttributes`: a single `uint64 nameplateRealPowerW`
field. -/
structure PVInverterAttributes where
  nameplateRealPowerW : Nat
  deriving DecidableEq, Repr, Inhabited

/-- Message `MeterAttributes`: a `repeated uint32 meterLocation` field. -/
structure MeterAttributes where
  meterLocation : List Nat
  deriving DecidableEq, Repr, Inhabited

/-- Message `GeneratorAttributes` (an arm of the `deviceAttributes` oneof
that the decoder never selects on). -/
structure GeneratorAttributes where
  nameplateRealPowerW : Nat
  nameplateApparentPowerVa : Nat
  deriving DecidableEq, Repr, Inhabited

/-- Message `TeslaEnergyEcuAttributes`.  `GetVitals` reads only `ecuType`
from it;
the nested optional attribute messages are carried to record that the
decoder does *not* consult them when disambiguating TESLA devices. -/
structure TeslaEnergyEcuAttributes where
  ecuType : Int
  pvInverterAttributes : Option PVInverterAttributes
  meterAttributes : Option MeterAttributes
  deriving DecidableEq, Repr, Inhabited

/-- The `oneof deviceAttributes` of the `DeviceAttributes` message.  At most
one arm is ever set (protobuf oneof semantics). -/
inductive DeviceAttributes where
  | teslaEnergyEcuAttributes (a : TeslaEnergyEcuAttributes)
  | generatorAttributes (a : GeneratorAttributes)
  | pvInverterAttributes (a : PVInverterAttributes)
  | meterAttributes (a : MeterAttributes)
  deriving DecidableEq, Repr

/-- Generated-code accessor `GetTeslaEnergyEcuAttributes` on a possibly-nil
`*DeviceAttributes`: the arm if the oneof holds it, `nil` otherwise. -/
def getTeslaEnergyEcuAttributes :
    Option DeviceAttributes → Option TeslaEnergyEcuAttributes
  | some (.teslaEnergyEcuAttributes a) => some a
  | _ => none

/-- Generated-code accessor `GetMeterAttributes` on a possibly-nil
`*DeviceAttributes`. -/
def getMeterAttributes : Option DeviceAttributes → Option MeterAttributes
  | some (.meterAttributes a) => some a
  | _ => none

/-- Generated-code accessor `GetPvInverterAttributes` on a possibly-nil
`*DeviceAttributes`. -/
def getPvInverterAttributes :
    Option DeviceAttributes → Option PVInverterAttributes
  | some (.pvInverterAttributes a) => some a
  | _ => none

/-- Nil-safe `GetEcuType` on a possibly-nil `*TeslaEnergyEcuAttributes`. -/
def getEcuType (a : Option TeslaEnergyEcuAttributes) : Int :=
  (a.map (·.ecuType)).getD 0

/-- Nil-safe `GetValue` on a possibly-nil `*StringValue`. -/
def getValue (s : Option StringValue) : String :=
  (s.map (·.value)).getD ""

/-- Nil-safe `GetSeconds` on a possibly-nil `*Timestamp`. -/
def getSeconds (t : Option Timestamp) : Int :=
  (t.map (·.seconds)).getD 0

/-- The `Device` protobuf message, restricted to the fields `GetVitals`
reads (`siteLabel`, `firstCommunicationTime` and `connectionParameters`
exist on the wire but are never consulted by the decoder). -/
structure Device where
  din : Option StringValue
  partNumber : Option StringValue
  serialNumber : Option StringValue
  manufacturer : Option StringValue
  componentParentDin : Option StringValue
  firmwareVersion : Option StringValue
  lastCommunicationTime : Option Timestamp
  deviceAttributes : Option DeviceAttributes
  deriving DecidableEq, Repr, Inhabited

/-- Message `SiteControllerConnectedDevice`, wrapping one `Device`.
`GetVitals` accesses `sccdwv.Device.Device` without a nil check (a nil
inner device would panic in Go), so the inner device is modelled as
present. -/
structure SiteControllerConnectedDevice where
  device : Device
  deriving DecidableEq, Repr, Inhabited

/-- Message `SiteControllerConnectedDeviceWithVitals`: one top-level
device entry of the wire payload. -/
structure SiteControllerConnectedDeviceWithVitals where
  device : SiteControllerConnectedDevice
  vitals : List DeviceVital
  alerts : List String
  deriving DecidableEq, Repr, Inhabited

/-- Message `DevicesWithVitals`: the top-level wire message, a repeated
list of device entries. -/
structure DevicesWithVitals where
  devices : List SiteControllerConnectedDeviceWithVitals
  deriving DecidableEq, Repr, Inhabited

/-! ## Typed device records (powerwall.go) -/

/-- Go struct `DeviceCommon`: identity/metadata shared by all typed
records. -/
structure DeviceCommon where
  Din : String
  PartNumber : String
  SerialNumber : String
  Manufacturer : String
  ComponentParentDin : String
  FirmwareVersion : String
  LastCommunicationTime : Int
  EcuType : Int
  Alerts : List String
  deriving DecidableEq, Inhabited

/-- Go struct `STSTSM` (site controller, singleton). -/
structure STSTSM where
  Common : DeviceCommon
  STSTSMLocation : String
  deriving DecidableEq, Inhabited

/-- Go struct `TESYNC` (synchronization controller, singleton). -/
structure TESYNC where
  Common : DeviceCommon
  ISLANDVL1NMain : Rat
  ISLANDFreqL1Main : Rat
  ISLANDVL1NLoad : Rat
  ISLANDFreqL1Load : Rat
  ISLANDPhaseL1MainLoad : Rat
  ISLANDVL2NMain : Rat
  ISLANDFreqL2Main : Rat
  ISLANDVL2NLoad : Rat
  ISLANDFreqL2Load : Rat
  ISLANDPhaseL2MainLoad : Rat
  ISLANDVL3NMain : Rat
  ISLANDFreqL3Main : Rat
  ISLANDVL3NLoad : Rat
  ISLANDFreqL3Load : Rat
  ISLANDPhaseL3MainLoad : Rat
  ISLANDL1L2PhaseDelta : Rat
  ISLANDL1L3PhaseDelta : Rat
  ISLANDL2L3PhaseDelta : Rat
  ISLANDGridState : String
  ISLANDL1MicrogridOk : Bool
  ISLANDL2MicrogridOk : Bool
  ISLANDL3MicrogridOk : Bool
  ISLANDReadyForSynchronization : Bool
  ISLANDGridConnected : Bool
  SYNCExternallyPowered : Bool
  SYNCSiteSwitchEnabled : Bool
  METERXCTAInstRealPower : Rat
  METERXCTBInstRealPower : Rat
  METERXCTCInstRealPower : Rat
  METERXCTAInstReactivePower : Rat
  METERXCTBInstReactivePower : Rat
  METERXCTCInstReactivePower : Rat
  METERXLifetimeEnergyImport : Rat
  METERXLifetimeEnergyExport : Rat
  METERXVL1N : Rat
  METERXVL2N : Rat
  METERXVL3N : Rat
  METERXCTAI : Rat
  METERXCTBI : Rat
  METERXCTCI : Rat
  METERYCTAInstRealPower : Rat
  METERYCTBInstRealPower : Rat
  METERYCTCInstRealPower : Rat
  METERYCTAInstReactivePower : Rat
  METERYCTBInstReactivePower : Rat
  METERYCTCInstReactivePower : Rat
  METERYLifetimeEnergyImport : Rat
  METERYLifetimeEnergyExport : Rat
  METERYVL1N : Rat
  METERYVL2N : Rat
  METERYVL3N : Rat
  METERYCTAI : Rat
  METERYCTBI : Rat
  METERYCTCI : Rat
  deriving DecidableEq, Inhabited

/-- Go struct `TEMSA` (backup switch, singleton). -/
structure TEMSA where
  Common : DeviceCommon
  ISLANDVL1NMain : Rat
  ISLANDFreqL1Main : Rat
  ISLANDVL1NLoad : Rat
  ISLANDFreqL1Load : Rat
  ISLANDPhaseL1MainLoad : Rat
  ISLANDVL2NMain : Rat
  ISLANDFreqL2Main : Rat
  ISLANDVL2NLoad : Rat
  ISLANDFreqL2Load : Rat
  ISLANDPhaseL2MainLoad : Rat
  ISLANDVL3NMain : Rat
  ISLANDFreqL3Main : Rat
  ISLANDVL3NLoad : Rat
  ISLANDFreqL3Load : Rat
  ISLANDPhaseL3MainLoad : Rat
  ISLANDL1L2PhaseDelta : Rat
  ISLANDL1L3PhaseDelta : Rat
  ISLANDL2L3PhaseDelta : Rat
  ISLANDGridState : String
  ISLANDL1MicrogridOk : Bool
  ISLANDL2MicrogridOk : Bool
  ISLANDL3MicrogridOk : Bool
  ISLANDReadyForSynchronization : Bool
  ISLANDGridConnected : Bool
  METERZCTAInstRealPower : Rat
  METERZCTBInstRealPower : Rat
  METERZCTAInstReactivePower : Rat
  METERZCTBInstReactivePower : Rat
  METERZLifetimeEnergyNetImport : Rat
  METERZLifetimeEnergyNetExport : Rat
  METERZVL1G : Rat
  METERZVL2G : Rat
  METERZCTAI : Rat
  METERZCTBI : Rat
  deriving DecidableEq, Inhabited

/-- Go struct `TETHC` (thermal controller, collection). -/
structure TETHC where
  Common : DeviceCommon
  THCState : String
  THCAmbientTemp : Rat
  deriving DecidableEq, Inhabited

/-- Go struct `TEPOD` (battery pack controller, collection). -/
structure TEPOD where
  Common : DeviceCommon
  PODNomEnergyToBeCharged : Rat
  PODNomEnergyRemaining : Rat
  PODNomFullPackEnergy : Rat
  PODAvailableChargePower : Rat
  PODAvailableDischgPower : Rat
  PODState : String
  PODEnableLine : Bool
  PODChargeComplete : Bool
  PODDischargeComplete : Bool
  PODPersistentlyFaulted : Bool
  PODPermanentlyFaulted : Bool
  PODChargeRequest : Bool
  PODActiveHeating : Bool
  PODCCVhold : Bool
  deriving DecidableEq, Inhabited

/-- Go struct `TEPINV` (inverter, collection). -/
structure TEPINV where
  Common : DeviceCommon
  PINVEnergyDischarged : Rat
  PINVEnergyCharged : Rat
  PINVVSplit1 : Rat
  PINVVSplit2 : Rat
  PINVPllFrequency : Rat
  PINVPllLocked : Bool
  PINVPout : Rat
  PINVQout : Rat
  PINVVout : Rat
  PINVFout : Rat
  PINVReadyForGridForming : Bool
  PINVState : String
  PINVGridState : String
  PINVHardwareEnableLine : Bool
  PINVPowerLimiter : String
  deriving DecidableEq, Inhabited

/-- Go struct `PVAC` (AC photovoltaic controller, collection). -/
structure PVAC where
  Common : DeviceCommon
  PVACIout : Rat
  PVACVL1Ground : Rat
  PVACVL2Ground : Rat
  PVACVHvMinusChassisDC : Rat
  PVACPVCurrentA : Rat
  PVACPVCurrentB : Rat
  PVACPVCurrentC : Rat
  PVACPVCurrentD : Rat
  PVACPVMeasuredVoltageA : Rat
  PVACPVMeasuredVoltageB : Rat
  PVACPVMeasuredVoltageC : Rat
  PVACPVMeasuredVoltageD : Rat
  PVACPVMeasuredPowerA : Rat
  PVACPVMeasuredPowerB : Rat
  PVACPVMeasuredPowerC : Rat
  PVACPVMeasuredPowerD : Rat
  PVACLifetimeEnergyPVTotal : Rat
  PVACVout : Rat
  PVACFout : Rat
  PVACPout : Rat
  PVACQout : Rat
  PVACState : String
  PVACGridState : String
  PVACInvState : String
  PVACPvStateA : String
  PVACPvStateB : String
  PVACPvStateC : String
  PVACPvStateD : String
  PVIPowerStatusSetpoint : String
  deriving DecidableEq, Inhabited

/-- Go struct `PVS` (solar string controller, collection). -/
structure PVS where
  Common : DeviceCommon
  PVSVLL : Rat
  PVSState : String
  PVSSelfTestState : String
  PVSEnableOutput : Bool
  PVSStringAConnected : Bool
  PVSStringBConnected : Bool
  PVSStringCConnected : Bool
  PVSStringDConnected : Bool
  deriving DecidableEq, Inhabited

/-- Go struct `TESLAMeter` (TESLA-prefixed meter device, collection). -/
structure TESLAMeter where
  Common : DeviceCommon
  MeterLocation : List Nat
  deriving DecidableEq, Inhabited

/-- Go struct `NEURIO` (third-party meter, collection). -/
structure NEURIO where
  Common : DeviceCommon
  MeterLocation : List Nat
  NEURIOCT0Location : String
  NEURIOCT0InstRealPower : Rat
  deriving DecidableEq, Inhabited

/-- Go struct `TESLAPV` (TESLA-prefixed PV inverter, collection). -/
structure TESLAPV where
  Common : DeviceCommon
  NameplateRealPowerW : Nat
  deriving DecidableEq, Inhabited

/-- Go struct `VitalDevices`: the aggregate decode result, with one slot per
singleton class and one ordered list per collection class. -/
structure VitalDevices where
  STSTSM : STSTSM
  TESYNC : TESYNC
  TEMSA : TEMSA
  TETHCs : List TETHC
  TEPODs : List TEPOD
  TEPINVs : List TEPINV
  PVACs : List PVAC
  PVSs : List PVS
  TESLAMeters : List TESLAMeter
  NEURIOs : List NEURIO
  TESLAPVs : List TESLAPV
  deriving DecidableEq, Inhabited

/-! ## Per-class vital dispatch (the `switch *vital.Name` blocks) -/

/-- The `switch *vital.Name` of the STSTSM branch of `GetVitals`: one
recognized name, unknown names logged and skipped. -/
def assignSTSTSM (r : STSTSM) (vital : DeviceVital) : STSTSM × List String :=
  if vital.name = "STSTSM-Location" then
    ({ r with STSTSMLocation := vital.getStringValue }, [])
  else (r, ["Unknown STSTSM DeviceVital.Name " ++ vital.name ++ "\n"])

/-- The `switch *vital.Name` of the TESYNC branch of `GetVitals`. -/
def assignTESYNC (r : TESYNC) (vital : DeviceVital) : TESYNC × List String :=
  if vital.name = "ISLAND_VL1N_Main" then ({ r with ISLANDVL1NMain := vital.getFloatValue }, [])
  else if vital.name = "ISLAND_FreqL1_Main" then ({ r with ISLANDFreqL1Main := vital.getFloatValue }, [])
  else if vital.name = "ISLAND_VL1N_Load" then ({ r with ISLANDVL1NLoad := vital.getFloatValue }, [])
  else if vital.name = "ISLAND_FreqL1_Load" then ({ r with ISLANDFreqL1Load := vital.getFloatValue }, [])
  else if vital.name = "ISLAND_PhaseL1_Main_Load" then ({ r with ISLANDPhaseL1MainLoad := vital.getFloatValue }, [])
  else if vital.name = "ISLAND_VL2N_Main" then ({ r with ISLANDVL2NMain := vital.getFloatValue }, [])
  else if vital.name = "ISLAND_FreqL2_Main" then ({ r with ISLANDFreqL2Main := vital.getFloatValue }, [])
  else if vital.name = "ISLAND_VL2N_Load" then ({ r with ISLANDVL2NLoad := vital.getFloatValue }, [])
  else if vital.name = "ISLAND_FreqL2_Load" then ({ r with ISLANDFreqL2Load := vital.getFloatValue }, [])
  else if vital.name = "ISLAND_PhaseL2_Main_Load" then ({ r with ISLANDPhaseL2MainLoad := vital.getFloatValue }, [])
  else if vital.name = "ISLAND_VL3N_Main" then ({ r with ISLANDVL3NMain := vital.getFloatValue }, [])
  else if vital.name = "ISLAND_FreqL3_Main" then ({ r with ISLANDFreqL3Main := vital.getFloatValue }, [])
  else if vital.name = "ISLAND_VL3N_Load" then ({ r with ISLANDVL3NLoad := vital.getFloatValue }, [])
  else if vital.name = "ISLAND_FreqL3_Load" then ({ r with ISLANDFreqL3Load := vital.getFloatValue }, [])
  else if vital.name = "ISLAND_PhaseL3_Main_Load" then ({ r with ISLANDPhaseL3MainLoad := vital.getFloatValue }, [])
  else if vital.name = "ISLAND_L1L2PhaseDelta" then ({ r with ISLANDL1L2PhaseDelta := vital.getFloatValue }, [])
  else if vital.name = "ISLAND_L1L3PhaseDelta" then ({ r with ISLANDL1L3PhaseDelta := vital.getFloatValue }, [])
  else if vital.name = "ISLAND_L2L3PhaseDelta" then ({ r with ISLANDL2L3PhaseDelta := vital.getFloatValue }, [])
  else if vital.name = "ISLAND_GridState" then ({ r with ISLANDGridState := vital.getStringValue }, [])
  else if vital.name = "ISLAND_L1MicrogridOk" then ({ r with ISLANDL1MicrogridOk := vital.getBoolValue }, [])
  else if vital.name = "ISLAND_L2MicrogridOk" then ({ r with ISLANDL2MicrogridOk := vital.getBoolValue }, [])
  else if vital.name = "ISLAND_L3MicrogridOk" then ({ r with ISLANDL3MicrogridOk := vital.getBoolValue }, [])
  else if vital.name = "ISLAND_ReadyForSynchronization" then ({ r with ISLANDReadyForSynchronization := vital.getBoolValue }, [])
  else if vital.name = "ISLAND_GridConnected" then ({ r with ISLANDGridConnected := vital.getBoolValue }, [])
  else if vital.name = "SYNC_ExternallyPowered" then ({ r with SYNCExternallyPowered := vital.getBoolValue }, [])
  else if vital.name = "SYNC_SiteSwitchEnabled" then ({ r with SYNCSiteSwitchEnabled := vital.getBoolValue }, [])
  else if vital.name = "METER_X_CTA_InstRealPower" then ({ r with METERXCTAInstRealPower := vital.getFloatValue }, [])
  else if vital.name = "METER_X_CTB_InstRealPower" then ({ r with METERXCTBInstRealPower := vital.getFloatValue }, [])
  else if vital.name = "METER_X_CTC_InstRealPower" then ({ r with METERXCTCInstRealPower := vital.getFloatValue }, [])
  else if vital.name = "METER_X_CTA_InstReactivePower" then ({ r with METERXCTAInstReactivePower := vital.getFloatValue }, [])
  else if vital.name = "METER_X_CTB_InstReactivePower" then ({ r with METERXCTBInstReactivePower := vital.getFloatValue }, [])
  else if vital.name = "METER_X_CTC_InstReactivePower" then ({ r with METERXCTCInstReactivePower := vital.getFloatValue }, [])
  else if vital.name = "METER_X_LifetimeEnergyImport" then ({ r with METERXLifetimeEnergyImport := vital.getFloatValue }, [])
  else if vital.name = "METER_X_LifetimeEnergyExport" then ({ r with METERXLifetimeEnergyExport := vital.getFloatValue }, [])
  else if vital.name = "METER_X_VL1N" then ({ r with METERXVL1N := vital.getFloatValue }, [])
  else if vital.name = "METER_X_VL2N" then ({ r with METERXVL2N := vital.getFloatValue }, [])
  else if vital.name = "METER_X_VL3N" then ({ r with METERXVL3N := vital.getFloatValue }, [])
  else if vital.name = "METER_X_CTA_I" then ({ r with METERXCTAI := vital.getFloatValue }, [])
  else if vital.name = "METER_X_CTB_I" then ({ r with METERXCTBI := vital.getFloatValue }, [])
  else if vital.name = "METER_X_CTC_I" then ({ r with METERXCTCI := vital.getFloatValue }, [])
  else if vital.name = "METER_Y_CTA_InstRealPower" then ({ r with METERYCTAInstRealPower := vital.getFloatValue }, [])
  else if vital.name = "METER_Y_CTB_InstRealPower" then ({ r with METERYCTBInstRealPower := vital.getFloatValue }, [])
  else if vital.name = "METER_Y_CTC_InstRealPower" then ({ r with METERYCTCInstRealPower := vital.getFloatValue }, [])
  else if vital.name = "METER_Y_CTA_InstReactivePower" then ({ r with METERYCTAInstReactivePower := vital.getFloatValue }, [])
  else if vital.name = "METER_Y_CTB_InstReactivePower" then ({ r with METERYCTBInstReactivePower := vital.getFloatValue }, [])
  else if vital.name = "METER_Y_CTC_InstReactivePower" then ({ r with METERYCTCInstReactivePower := vital.getFloatValue }, [])
  else if vital.name = "METER_Y_LifetimeEnergyImport" then ({ r with METERYLifetimeEnergyImport := vital.getFloatValue }, [])
  else if vital.name = "METER_Y_LifetimeEnergyExport" then ({ r with METERYLifetimeEnergyExport := vital.getFloatValue }, [])
  else if vital.name = "METER_Y_VL1N" then ({ r with METERYVL1N := vital.getFloatValue }, [])
  else if vital.name = "METER_Y_VL2N" then ({ r with METERYVL2N := vital.getFloatValue }, [])
  else if vital.name = "METER_Y_VL3N" then ({ r with METERYVL3N := vital.getFloatValue }, [])
  else if vital.name = "METER_Y_CTA_I" then ({ r with METERYCTAI := vital.getFloatValue }, [])
  else if vital.name = "METER_Y_CTB_I" then ({ r with METERYCTBI := vital.getFloatValue }, [])
  else if vital.name = "METER_Y_CTC_I" then ({ r with METERYCTCI := vital.getFloatValue }, [])
  else (r, ["Unknown TESYNC DeviceVital.Name " ++ vital.name ++ "\n"])

/-- The `switch *vital.Name` of the TEMSA branch of `GetVitals` (its default
message omits the class name in the source). -/
def assignTEMSA (r : TEMSA) (vital : DeviceVital) : TEMSA × List String :=
  if vital.name = "ISLAND_VL1N_Main" then ({ r with ISLANDVL1NMain := vital.getFloatValue }, [])
  else if vital.name = "ISLAND_FreqL1_Main" then ({ r with ISLANDFreqL1Main := vital.getFloatValue }, [])
  else if vital.name = "ISLAND_VL1N_Load" then ({ r with ISLANDVL1NLoad := vital.getFloatValue }, [])
  else if vital.name = "ISLAND_FreqL1_Load" then ({ r with ISLANDFreqL1Load := vital.getFloatValue }, [])
  else if vital.name = "ISLAND_PhaseL1_Main_Load" then ({ r with ISLANDPhaseL1MainLoad := vital.getFloatValue }, [])
  else if vital.name = "ISLAND_VL2N_Main" then ({ r with ISLANDVL2NMain := vital.getFloatValue }, [])
  else if vital.name = "ISLAND_FreqL2_Main" then ({ r with ISLANDFreqL2Main := vital.getFloatValue }, [])
  else if vital.name = "ISLAND_VL2N_Load" then ({ r with ISLANDVL2NLoad := vital.getFloatValue }, [])
  else if vital.name = "ISLAND_FreqL2_Load" then ({ r with ISLANDFreqL2Load := vital.getFloatValue }, [])
  else if vital.name = "ISLAND_PhaseL2_Main_Load" then ({ r with ISLANDPhaseL2MainLoad := vital.getFloatValue }, [])
  else if vital.name = "ISLAND_VL3N_Main" then ({ r with ISLANDVL3NMain := vital.getFloatValue }, [])
  else if vital.name = "ISLAND_FreqL3_Main" then ({ r with ISLANDFreqL3Main := vital.getFloatValue }, [])
  else if vital.name = "ISLAND_VL3N_Load" then ({ r with ISLANDVL3NLoad := vital.getFloatValue }, [])
  else if vital.name = "ISLAND_FreqL3_Load" then ({ r with ISLANDFreqL3Load := vital.getFloatValue }, [])
  else if vital.name = "ISLAND_PhaseL3_Main_Load" then ({ r with ISLANDPhaseL3MainLoad := vital.getFloatValue }, [])
  else if vital.name = "ISLAND_L1L2PhaseDelta" then ({ r with ISLANDL1L2PhaseDelta := vital.getFloatValue }, [])
  else if vital.name = "ISLAND_L1L3PhaseDelta" then ({ r with ISLANDL1L3PhaseDelta := vital.getFloatValue }, [])
  else if vital.name = "ISLAND_L2L3PhaseDelta" then ({ r with ISLANDL2L3PhaseDelta := vital.getFloatValue }, [])
  else if vital.name = "ISLAND_GridState" then ({ r with ISLANDGridState := vital.getStringValue }, [])
  else if vital.name = "ISLAND_L1MicrogridOk" then ({ r with ISLANDL1MicrogridOk := vital.getBoolValue }, [])
  else if vital.name = "ISLAND_L2MicrogridOk" then ({ r with ISLANDL2MicrogridOk := vital.getBoolValue }, [])
  else if vital.name = "ISLAND_L3MicrogridOk" then ({ r with ISLANDL3MicrogridOk := vital.getBoolValue }, [])
  else if vital.name = "ISLAND_ReadyForSynchronization" then ({ r with ISLANDReadyForSynchronization := vital.getBoolValue }, [])
  else if vital.name = "ISLAND_GridConnected" then ({ r with ISLANDGridConnected := vital.getBoolValue }, [])
  else if vital.name = "METER_Z_CTA_InstRealPower" then ({ r with METERZCTAInstRealPower := vital.getFloatValue }, [])
  else if vital.name = "METER_Z_CTB_InstRealPower" then ({ r with METERZCTBInstRealPower := vital.getFloatValue }, [])
  else if vital.name = "METER_Z_CTA_InstReactivePower" then ({ r with METERZCTAInstReactivePower := vital.getFloatValue }, [])
  else if vital.name = "METER_Z_CTB_InstReactivePower" then ({ r with METERZCTBInstReactivePower := vital.getFloatValue }, [])
  else if vital.name = "METER_Z_LifetimeEnergyNetImport" then ({ r with METERZLifetimeEnergyNetImport := vital.getFloatValue }, [])
  else if vital.name = "METER_Z_LifetimeEnergyNetExport" then ({ r with METERZLifetimeEnergyNetExport := vital.getFloatValue }, [])
  else if vital.name = "METER_Z_VL1G" then ({ r with METERZVL1G := vital.getFloatValue }, [])
  else if vital.name = "METER_Z_VL2G" then ({ r with METERZVL2G := vital.getFloatValue }, [])
  else if vital.name = "METER_Z_CTA_I" then ({ r with METERZCTAI := vital.getFloatValue }, [])
  else if vital.name = "METER_Z_CTB_I" then ({ r with METERZCTBI := vital.getFloatValue }, [])
  else (r, ["Unknown DeviceVital.Name " ++ vital.name ++ "\n"])

/-- The `switch *vital.Name` of the TETHC branch of `GetVitals`. -/
def assignTETHC (r : TETHC) (vital : DeviceVital) : TETHC × List String :=
  if vital.name = "THC_State" then ({ r with THCState := vital.getStringValue }, [])
  else if vital.name = "THC_AmbientTemp" then ({ r with THCAmbientTemp := vital.getFloatValue }, [])
  else (r, ["Unknown TETHC DeviceVital.Name " ++ vital.name ++ "\n"])

/-- The `switch *vital.Name` of the TEPOD branch of `GetVitals`. -/
def assignTEPOD (r : TEPOD) (vital : DeviceVital) : TEPOD × List String :=
  if vital.name = "POD_nom_energy_to_be_charged" then ({ r with PODNomEnergyToBeCharged := vital.getFloatValue }, [])
  else if vital.name = "POD_nom_energy_remaining" then ({ r with PODNomEnergyRemaining := vital.getFloatValue }, [])
  else if vital.name = "POD_nom_full_pack_energy" then ({ r with PODNomFullPackEnergy := vital.getFloatValue }, [])
  else if vital.name = "POD_available_charge_power" then ({ r with PODAvailableChargePower := vital.getFloatValue }, [])
  else if vital.name = "POD_available_dischg_power" then ({ r with PODAvailableDischgPower := vital.getFloatValue }, [])
  else if vital.name = "POD_state" then ({ r with PODState := vital.getStringValue }, [])
  else if vital.name = "POD_enable_line" then ({ r with PODEnableLine := vital.getBoolValue }, [])
  else if vital.name = "POD_ChargeComplete" then ({ r with PODChargeComplete := vital.getBoolValue }, [])
  else if vital.name = "POD_DischargeComplete" then ({ r with PODDischargeComplete := vital.getBoolValue }, [])
  else if vital.name = "POD_PersistentlyFaulted" then ({ r with PODPersistentlyFaulted := vital.getBoolValue }, [])
  else if vital.name = "POD_PermanentlyFaulted" then ({ r with PODPermanentlyFaulted := vital.getBoolValue }, [])
  else if vital.name = "POD_ChargeRequest" then ({ r with PODChargeRequest := vital.getBoolValue }, [])
  else if vital.name = "POD_ActiveHeating" then ({ r with PODActiveHeating := vital.getBoolValue }, [])
  else if vital.name = "POD_CCVhold" then ({ r with PODCCVhold := vital.getBoolValue }, [])
  else (r, ["Unknown TEPOD DeviceVital.Name " ++ vital.name ++ "\n"])

/-- The `switch *vital.Name` of the TEPINV branch of `GetVitals` (its
default message omits the class name in the source). -/
def assignTEPINV (r : TEPINV) (vital : DeviceVital) : TEPINV × List String :=
  if vital.name = "PINV_EnergyDischarged" then ({ r with PINVEnergyDischarged := vital.getFloatValue }, [])
  else if vital.name = "PINV_EnergyCharged" then ({ r with PINVEnergyCharged := vital.getFloatValue }, [])
  else if vital.name = "PINV_VSplit1" then ({ r with PINVVSplit1 := vital.getFloatValue }, [])
  else if vital.name = "PINV_VSplit2" then ({ r with PINVVSplit2 := vital.getFloatValue }, [])
  else if vital.name = "PINV_PllFrequency" then ({ r with PINVPllFrequency := vital.getFloatValue }, [])
  else if vital.name = "PINV_PllLocked" then ({ r with PINVPllLocked := vital.getBoolValue }, [])
  else if vital.name = "PINV_Pout" then ({ r with PINVPout := vital.getFloatValue }, [])
  else if vital.name = "PINV_Qout" then ({ r with PINVQout := vital.getFloatValue }, [])
  else if vital.name = "PINV_Vout" then ({ r with PINVVout := vital.getFloatValue }, [])
  else if vital.name = "PINV_Fout" then ({ r with PINVFout := vital.getFloatValue }, [])
  else if vital.name = "PINV_ReadyForGridForming" then ({ r with PINVReadyForGridForming := vital.getBoolValue }, [])
  else if vital.name = "PINV_State" then ({ r with PINVState := vital.getStringValue }, [])
  else if vital.name = "PINV_GridState" then ({ r with PINVGridState := vital.getStringValue }, [])
  else if vital.name = "PINV_HardwareEnableLine" then ({ r with PINVHardwareEnableLine := vital.getBoolValue }, [])
  else if vital.name = "PINV_PowerLimiter" then ({ r with PINVPowerLimiter := vital.getStringValue }, [])
  else (r, ["Unknown DeviceVital.Name " ++ vital.name ++ "\n"])

/-- The `switch *vital.Name` of the PVAC branch of `GetVitals` (its default
message omits the class name in the source). -/
def assignPVAC (r : PVAC) (vital : DeviceVital) : PVAC × List String :=
  if vital.name = "PVAC_Iout" then ({ r with PVACIout := vital.getFloatValue }, [])
  else if vital.name = "PVAC_VL1Ground" then ({ r with PVACVL1Ground := vital.getFloatValue }, [])
  else if vital.name = "PVAC_VL2Ground" then ({ r with PVACVL2Ground := vital.getFloatValue }, [])
  else if vital.name = "PVAC_VHvMinusChassisDC" then ({ r with PVACVHvMinusChassisDC := vital.getFloatValue }, [])
  else if vital.name = "PVAC_PVCurrent_A" then ({ r with PVACPVCurrentA := vital.getFloatValue }, [])
  else if vital.name = "PVAC_PVCurrent_B" then ({ r with PVACPVCurrentB := vital.getFloatValue }, [])
  else if vital.name = "PVAC_PVCurrent_C" then ({ r with PVACPVCurrentC := vital.getFloatValue }, [])
  else if vital.name = "PVAC_PVCurrent_D" then ({ r with PVACPVCurrentD := vital.getFloatValue }, [])
  else if vital.name = "PVAC_PVMeasuredVoltage_A" then ({ r with PVACPVMeasuredVoltageA := vital.getFloatValue }, [])
  else if vital.name = "PVAC_PVMeasuredVoltage_B" then ({ r with PVACPVMeasuredVoltageB := vital.getFloatValue }, [])
  else if vital.name = "PVAC_PVMeasuredVoltage_C" then ({ r with PVACPVMeasuredVoltageC := vital.getFloatValue }, [])
  else if vital.name = "PVAC_PVMeasuredVoltage_D" then ({ r with PVACPVMeasuredVoltageD := vital.getFloatValue }, [])
  else if vital.name = "PVAC_PVMeasuredPower_A" then ({ r with PVACPVMeasuredPowerA := vital.getFloatValue }, [])
  else if vital.name = "PVAC_PVMeasuredPower_B" then ({ r with PVACPVMeasuredPowerB := vital.getFloatValue }, [])
  else if vital.name = "PVAC_PVMeasuredPower_C" then ({ r with PVACPVMeasuredPowerC := vital.getFloatValue }, [])
  else if vital.name = "PVAC_PVMeasuredPower_D" then ({ r with PVACPVMeasuredPowerD := vital.getFloatValue }, [])
  else if vital.name = "PVAC_LifetimeEnergyPV_Total" then ({ r with PVACLifetimeEnergyPVTotal := vital.getFloatValue }, [])
  else if vital.name = "PVAC_Vout" then ({ r with PVACVout := vital.getFloatValue }, [])
  else if vital.name = "PVAC_Fout" then ({ r with PVACFout := vital.getFloatValue }, [])
  else if vital.name = "PVAC_Pout" then ({ r with PVACPout := vital.getFloatValue }, [])
  else if vital.name = "PVAC_Qout" then ({ r with PVACQout := vital.getFloatValue }, [])
  else if vital.name = "PVAC_State" then ({ r with PVACState := vital.getStringValue }, [])
  else if vital.name = "PVAC_GridState" then ({ r with PVACGridState := vital.getStringValue }, [])
  else if vital.name = "PVAC_InvState" then ({ r with PVACInvState := vital.getStringValue }, [])
  else if vital.name = "PVAC_PvState_A" then ({ r with PVACPvStateA := vital.getStringValue }, [])
  else if vital.name = "PVAC_PvState_B" then ({ r with PVACPvStateB := vital.getStringValue }, [])
  else if vital.name = "PVAC_PvState_C" then ({ r with PVACPvStateC := vital.getStringValue }, [])
  else if vital.name = "PVAC_PvState_D" then ({ r with PVACPvStateD := vital.getStringValue }, [])
  else if vital.name = "PVI-PowerStatusSetpoint" then ({ r with PVIPowerStatusSetpoint := vital.getStringValue }, [])
  else (r, ["Unknown DeviceVital.Name " ++ vital.name ++ "\n"])

/-- The `switch *vital.Name` of the PVS branch of `GetVitals` (its default
message says TEPINV in the source). -/
def assignPVS (r : PVS) (vital : DeviceVital) : PVS × List String :=
  if vital.name = "PVS_vLL" then ({ r with PVSVLL := vital.getFloatValue }, [])
  else if vital.name = "PVS_State" then ({ r with PVSState := vital.getStringValue }, [])
  else if vital.name = "PVS_SelfTestState" then ({ r with PVSSelfTestState := vital.getStringValue }, [])
  else if vital.name = "PVS_EnableOutput" then ({ r with PVSEnableOutput := vital.getBoolValue }, [])
  else if vital.name = "PVS_StringA_Connected" then ({ r with PVSStringAConnected := vital.getBoolValue }, [])
  else if vital.name = "PVS_StringB_Connected" then ({ r with PVSStringBConnected := vital.getBoolValue }, [])
  else if vital.name = "PVS_StringC_Connected" then ({ r with PVSStringCConnected := vital.getBoolValue }, [])
  else if vital.name = "PVS_StringD_Connected" then ({ r with PVSStringDConnected := vital.getBoolValue }, [])
  else (r, ["Unknown TEPINV DeviceVital.Name " ++ vital.name ++ "\n"])

/-- The vital switch of the TESLA-meter branch: no names are recognized,
every vital is logged as unknown. -/
def assignTESLAMeter (r : TESLAMeter) (vital : DeviceVital) :
    TESLAMeter × List String :=
  (r, ["Unknown TESLA Meter DeviceVital.Name " ++ vital.name ++ "\n"])

/-- The vital switch of the TESLA-PV branch: no names are recognized. -/
def assignTESLAPV (r : TESLAPV) (vital : DeviceVital) :
    TESLAPV × List String :=
  (r, ["Unknown TESLA PV DeviceVital.Name " ++ vital.name ++ "\n"])

/-- The `switch *vital.Name` of the NEURIO branch of `GetVitals`. -/
def assignNEURIO (r : NEURIO) (vital : DeviceVital) : NEURIO × List String :=
  if vital.name = "NEURIO_CT0_Location" then ({ r with NEURIOCT0Location := vital.getStringValue }, [])
  else if vital.name = "NEURIO_CT0_InstRealPower" then ({ r with NEURIOCT0InstRealPower := vital.getFloatValue }, [])
  else (r, ["Unknown NEURIO DeviceVital.Name " ++ vital.name ++ "\n"])

/-! ## The decode loop of `GetVitals` -/

/-- The classification test `strings.Index(common.Din, p) == 0` of the
dispatch chain: true exactly when `p` is a prefix of the din.  Modelled on
the character lists so that the test is kernel-computable; for the ASCII
prefixes involved this agrees with the byte-wise Go test. -/
def strStartsWith (p s : String) : Bool :=
  p.data.isPrefixOf s.data

/-- The `DeviceCommon` construction at the top of each loop iteration of
`GetVitals` (lines 704–713 of powerwall.go). -/
def mkDeviceCommon (sccdwv : SiteControllerConnectedDeviceWithVitals) :
    DeviceCommon :=
  { Din := getValue sccdwv.device.device.din
    PartNumber := getValue sccdwv.device.device.partNumber
    SerialNumber := getValue sccdwv.device.device.serialNumber
    Manufacturer := getValue sccdwv.device.device.manufacturer
    ComponentParentDin := getValue sccdwv.device.device.componentParentDin
    FirmwareVersion := getValue sccdwv.device.device.firmwareVersion
    LastCommunicationTime := getSeconds sccdwv.device.device.lastCommunicationTime
    EcuType :=
      getEcuType
        (getTeslaEnergyEcuAttributes sccdwv.device.device.deviceAttributes)
    Alerts := sccdwv.alerts }

/-- The inner `for j` loop over `sccdwv.Vitals`: threads the typed record
through the per-vital switch and accumulates the printed messages in
order. -/
def foldVitals {α : Type} (assign : α → DeviceVital → α × List String)
    (init : α) (vitals : List DeviceVital) : α × List String :=
  vitals.foldl
    (fun acc v => ((assign acc.1 v).1, acc.2 ++ (assign acc.1 v).2))
    (init, [])

/-- One iteration of the `for i` loop of `GetVitals`: the
`strings.Index(common.Din, ...) == 0` dispatch chain, updating the
aggregate and returning the messages printed during the iteration.
`strings.Index(s, p) == 0` holds exactly when `p` is a prefix of `s`. -/
def processDevice (vd : VitalDevices)
    (sccdwv : SiteControllerConnectedDeviceWithVitals) :
    VitalDevices × List String :=
  if strStartsWith "STSTSM" (mkDeviceCommon sccdwv).Din then
    ({ vd with STSTSM :=
        { (foldVitals assignSTSTSM default sccdwv.vitals).1 with
          Common := mkDeviceCommon sccdwv } },
      (foldVitals assignSTSTSM default sccdwv.vitals).2)
  else if strStartsWith "TESYNC" (mkDeviceCommon sccdwv).Din then
    ({ vd with TESYNC :=
        { (foldVitals assignTESYNC default sccdwv.vitals).1 with
          Common := mkDeviceCommon sccdwv } },
      (foldVitals assignTESYNC default sccdwv.vitals).2)
  else if strStartsWith "TEMSA" (mkDeviceCommon sccdwv).Din then
    ({ vd with TEMSA :=
        { (foldVitals assignTEMSA default sccdwv.vitals).1 with
          Common := mkDeviceCommon sccdwv } },
      (foldVitals assignTEMSA default sccdwv.vitals).2)
  else if strStartsWith "TETHC" (mkDeviceCommon sccdwv).Din then
    ({ vd with TETHCs := vd.TETHCs ++
        [{ (foldVitals assignTETHC default sccdwv.vitals).1 with
           Common := mkDeviceCommon sccdwv }] },
      (foldVitals assignTETHC default sccdwv.vitals).2)
  else if strStartsWith "TEPOD" (mkDeviceCommon sccdwv).Din then
    ({ vd with TEPODs := vd.TEPODs ++
        [{ (foldVitals assignTEPOD default sccdwv.vitals).1 with
           Common := mkDeviceCommon sccdwv }] },
      (foldVitals assignTEPOD default sccdwv.vitals).2)
  else if strStartsWith "TEPINV" (mkDeviceCommon sccdwv).Din then
    ({ vd with TEPINVs := vd.TEPINVs ++
        [{ (foldVitals assignTEPINV default sccdwv.vitals).1 with
           Common := mkDeviceCommon sccdwv }] },
      (foldVitals assignTEPINV default sccdwv.vitals).2)
  else if strStartsWith "PVAC" (mkDeviceCommon sccdwv).Din then
    ({ vd with PVACs := vd.PVACs ++
        [{ (foldVitals assignPVAC default sccdwv.vitals).1 with
           Common := mkDeviceCommon sccdwv }] },
      (foldVitals assignPVAC default sccdwv.vitals).2)
  else if strStartsWith "PVS" (mkDeviceCommon sccdwv).Din then
    ({ vd with PVSs := vd.PVSs ++
        [{ (foldVitals assignPVS default sccdwv.vitals).1 with
           Common := mkDeviceCommon sccdwv }] },
      (foldVitals assignPVS default sccdwv.vitals).2)
  else if strStartsWith "TESLA" (mkDeviceCommon sccdwv).Din then
    match getMeterAttributes sccdwv.device.device.deviceAttributes with
    | some m =>
      ({ vd with TESLAMeters := vd.TESLAMeters ++
          [{ (foldVitals assignTESLAMeter
                { (default : TESLAMeter) with
                  MeterLocation := m.meterLocation }
                sccdwv.vitals).1 with
             Common := mkDeviceCommon sccdwv }] },
        (foldVitals assignTESLAMeter
          { (default : TESLAMeter) with MeterLocation := m.meterLocation }
          sccdwv.vitals).2)
    | none =>
      match getPvInverterAttributes sccdwv.device.device.deviceAttributes with
      | some p =>
        ({ vd with TESLAPVs := vd.TESLAPVs ++
            [{ (foldVitals assignTESLAPV
                  { (default : TESLAPV) with
                    NameplateRealPowerW := p.nameplateRealPowerW }
                  sccdwv.vitals).1 with
               Common := mkDeviceCommon sccdwv }] },
          (foldVitals assignTESLAPV
            { (default : TESLAPV) with
              NameplateRealPowerW := p.nameplateRealPowerW }
            sccdwv.vitals).2)
      | none => (vd, ["Unknown TESLA device in vitals\n"])
  else if strStartsWith "NEURIO" (mkDeviceCommon sccdwv).Din then
    ({ vd with NEURIOs := vd.NEURIOs ++
        [match getMeterAttributes sccdwv.device.device.deviceAttributes with
         | some m =>
           { { (foldVitals assignNEURIO default sccdwv.vitals).1 with
               Common := mkDeviceCommon sccdwv } with
             MeterLocation := m.meterLocation }
         | none =>
           { (foldVitals assignNEURIO default sccdwv.vitals).1 with
             Common := mkDeviceCommon sccdwv }] },
      (foldVitals assignNEURIO default sccdwv.vitals).2)
  else
    -- The dispatch chain of GetVitals has no final else: an entry whose
    -- din matches no known class is skipped without any message.
    (vd, [])

/-- The loop body of the `for i` loop, threading the aggregate and the
accumulated messages. -/
def vitalsStep (acc : VitalDevices × List String)
    (e : SiteControllerConnectedDeviceWithVitals) :
    VitalDevices × List String :=
  ((processDevice acc.1 e).1, acc.2 ++ (processDevice acc.1 e).2)

/-- The whole `for i` loop of `GetVitals`, starting from the zero-valued
`var vd VitalDevices` and accumulating all printed messages in order. -/
def getVitalsFromDevices (d : DevicesWithVitals) : VitalDevices × List String :=
  d.devices.foldl vitalsStep (default, [])

/-- Function `GetVitals` after the body bytes have been fetched:
`proto.Unmarshal`
(third-party library code, passed in as `unmarshal`) either fails — and
`GetVitals` returns `nil, err` — or yields the device list, which is decoded
by the loop.  The `Except` result carries either the error or the aggregate
together with the log. -/
def GetVitals (unmarshal : List Nat → Except String DevicesWithVitals)
    (body : List Nat) : Except String (VitalDevices × List String) :=
  match unmarshal body with
  | .error e => .error e
  | .ok devices => .ok (getVitalsFromDevices devices)

/-! ## Routing projections

Derived views of the dispatch chain, used to state the bookkeeping
claims.  `routeOf` repeats exactly the conditions tested by
`processDevice`, in the same order. -/

/-- The class a device entry is routed to, or `dropped`. -/
inductive Route where
  | ststsm
  | tesync
  | temsa
  | tethc
  | tepod
  | tepinv
  | pvac
  | pvs
  | teslaMeter
  | teslaPV
  | neurio
  | dropped
  deriving DecidableEq, Repr

/-- The classification performed by the dispatch chain of `GetVitals`,
entry by entry. -/
def routeOf (sccdwv : SiteControllerConnectedDeviceWithVitals) : Route :=
  if strStartsWith "STSTSM" (mkDeviceCommon sccdwv).Din then .ststsm
  else if strStartsWith "TESYNC" (mkDeviceCommon sccdwv).Din then .tesync
  else if strStartsWith "TEMSA" (mkDeviceCommon sccdwv).Din then .temsa
  else if strStartsWith "TETHC" (mkDeviceCommon sccdwv).Din then .tethc
  else if strStartsWith "TEPOD" (mkDeviceCommon sccdwv).Din then .tepod
  else if strStartsWith "TEPINV" (mkDeviceCommon sccdwv).Din then .tepinv
  else if strStartsWith "PVAC" (mkDeviceCommon sccdwv).Din then .pvac
  else if strStartsWith "PVS" (mkDeviceCommon sccdwv).Din then .pvs
  else if strStartsWith "TESLA" (mkDeviceCommon sccdwv).Din then
    match getMeterAttributes sccdwv.device.device.deviceAttributes with
    | some _ => .teslaMeter
    | none =>
      match getPvInverterAttributes sccdwv.device.device.deviceAttributes with
      | some _ => .teslaPV
      | none => .dropped
  else if strStartsWith "NEURIO" (mkDeviceCommon sccdwv).Din then .neurio
  else .dropped

/-- Routes that land in a singleton slot of `VitalDevices`. -/
def Route.isSingleton : Route → Bool
  | .ststsm => true
  | .tesync => true
  | .temsa => true
  | _ => false

/-- Routes that append to a collection of `VitalDevices`. -/
def Route.isCollection : Route → Bool
  | .tethc => true
  | .tepod => true
  | .tepinv => true
  | .pvac => true
  | .pvs => true
  | .teslaMeter => true
  | .teslaPV => true
  | .neurio => true
  | _ => false

/-- Sum of the lengths of all collection lists of the aggregate. -/
def collTotal (vd : VitalDevices) : Nat :=
  vd.TETHCs.length + vd.TEPODs.length + vd.TEPINVs.length + vd.PVACs.length +
    vd.PVSs.length + vd.TESLAMeters.length + vd.NEURIOs.length +
    vd.TESLAPVs.length

/-- The STSTSM record an entry decodes to. -/
def mkSTSTSM (e : SiteControllerConnectedDeviceWithVitals) : STSTSM :=
  { (foldVitals assignSTSTSM default e.vitals).1 with Common := mkDeviceCommon e }

/-- The TESYNC record an entry decodes to. -/
def mkTESYNC (e : SiteControllerConnectedDeviceWithVitals) : TESYNC :=
  { (foldVitals assignTESYNC default e.vitals).1 with Common := mkDeviceCommon e }

/-- The TEMSA record an entry decodes to. -/
def mkTEMSA (e : SiteControllerConnectedDeviceWithVitals) : TEMSA :=
  { (foldVitals assignTEMSA default e.vitals).1 with Common := mkDeviceCommon e }

/-- The TETHC record an entry decodes to. -/
def mkTETHC (e : SiteControllerConnectedDeviceWithVitals) : TETHC :=
  { (foldVitals assignTETHC default e.vitals).1 with Common := mkDeviceCommon e }

/-- The TEPOD record an entry decodes to. -/
def mkTEPOD (e : SiteControllerConnectedDeviceWithVitals) : TEPOD :=
  { (foldVitals assignTEPOD default e.vitals).1 with Common := mkDeviceCommon e }

/-- The TEPINV record an entry decodes to. -/
def mkTEPINV (e : SiteControllerConnectedDeviceWithVitals) : TEPINV :=
  { (foldVitals assignTEPINV default e.vitals).1 with Common := mkDeviceCommon e }

/-- The PVAC record an entry decodes to. -/
def mkPVAC (e : SiteControllerConnectedDeviceWithVitals) : PVAC :=
  { (foldVitals assignPVAC default e.vitals).1 with Common := mkDeviceCommon e }

/-- The PVS record an entry decodes to. -/
def mkPVS (e : SiteControllerConnectedDeviceWithVitals) : PVS :=
  { (foldVitals assignPVS default e.vitals).1 with Common := mkDeviceCommon e }

/-- The record the TESLA-meter branch starts its vital fold from
(`var tesla TESLAMeter` followed by the `MeterLocation` copy). -/
def tesla0Meter (e : SiteControllerConnectedDeviceWithVitals) : TESLAMeter :=
  { (default : TESLAMeter) with
    MeterLocation :=
      ((getMeterAttributes e.device.device.deviceAttributes).getD
        default).meterLocation }

/-- The record the TESLA-PV branch starts its vital fold from
(`var tesla TESLAPV` followed by the `NameplateRealPowerW` copy). -/
def tesla0PV (e : SiteControllerConnectedDeviceWithVitals) : TESLAPV :=
  { (default : TESLAPV) with
    NameplateRealPowerW :=
      ((getPvInverterAttributes e.device.device.deviceAttributes).getD
        default).nameplateRealPowerW }

/-- The TESLAMeter record an entry decodes to (meaningful when its route is
`teslaMeter`, i.e. the meter-attributes arm is present). -/
def mkTESLAMeter (e : SiteControllerConnectedDeviceWithVitals) : TESLAMeter :=
  { (foldVitals assignTESLAMeter (tesla0Meter e) e.vitals).1 with
    Common := mkDeviceCommon e }

/-- The TESLAPV record an entry decodes to (meaningful when its route is
`teslaPV`). -/
def mkTESLAPV (e : SiteControllerConnectedDeviceWithVitals) : TESLAPV :=
  { (foldVitals assignTESLAPV (tesla0PV e) e.vitals).1 with
    Common := mkDeviceCommon e }

/-- The NEURIO record an entry decodes to. -/
def mkNEURIODev (e : SiteControllerConnectedDeviceWithVitals) : NEURIO :=
  let n : NEURIO :=
    { (foldVitals assignNEURIO default e.vitals).1 with
      Common := mkDeviceCommon e }
  match getMeterAttributes e.device.device.deviceAttributes with
  | some m => { n with MeterLocation := m.meterLocation }
  | none => n

/-- The messages printed while processing one device entry, as a function
of its route. -/
def deviceLogs (e : SiteControllerConnectedDeviceWithVitals) : List String :=
  match routeOf e with
  | .ststsm => (foldVitals assignSTSTSM default e.vitals).2
  | .tesync => (foldVitals assignTESYNC default e.vitals).2
  | .temsa => (foldVitals assignTEMSA default e.vitals).2
  | .tethc => (foldVitals assignTETHC default e.vitals).2
  | .tepod => (foldVitals assignTEPOD default e.vitals).2
  | .tepinv => (foldVitals assignTEPINV default e.vitals).2
  | .pvac => (foldVitals assignPVAC default e.vitals).2
  | .pvs => (foldVitals assignPVS default e.vitals).2
  | .teslaMeter => (foldVitals assignTESLAMeter (tesla0Meter e) e.vitals).2
  | .teslaPV => (foldVitals assignTESLAPV (tesla0PV e) e.vitals).2
  | .neurio => (foldVitals assignNEURIO default e.vitals).2
  | .dropped =>
    if strStartsWith "TESLA" (mkDeviceCommon e).Din then
      ["Unknown TESLA device in vitals\n"]
    else []

/-- The aggregate after one device entry, as a function of its route (the
statement side of the characterization of `processDevice`). -/
def routeUpdate (vd : VitalDevices)
    (e : SiteControllerConnectedDeviceWithVitals) : VitalDevices :=
  match routeOf e with
  | .ststsm => { vd with STSTSM := mkSTSTSM e }
  | .tesync => { vd with TESYNC := mkTESYNC e }
  | .temsa => { vd with TEMSA := mkTEMSA e }
  | .tethc => { vd with TETHCs := vd.TETHCs ++ [mkTETHC e] }
  | .tepod => { vd with TEPODs := vd.TEPODs ++ [mkTEPOD e] }
  | .tepinv => { vd with TEPINVs := vd.TEPINVs ++ [mkTEPINV e] }
  | .pvac => { vd with PVACs := vd.PVACs ++ [mkPVAC e] }
  | .pvs => { vd with PVSs := vd.PVSs ++ [mkPVS e] }
  | .teslaMeter => { vd with TESLAMeters := vd.TESLAMeters ++ [mkTESLAMeter e] }
  | .teslaPV => { vd with TESLAPVs := vd.TESLAPVs ++ [mkTESLAPV e] }
  | .neurio => { vd with NEURIOs := vd.NEURIOs ++ [mkNEURIODev e] }
  | .dropped => vd

/-- The known vital names of each device class, in the order of the
corresponding switch of GetVitals.  The two TESLA classes recognize no
names; the dropped arm is unused. -/
def classKnownNames : Route → List String
  | .ststsm =>
    ["STSTSM-Location"]
  | .tesync =>
    ["ISLAND_VL1N_Main", "ISLAND_FreqL1_Main", "ISLAND_VL1N_Load",
      "ISLAND_FreqL1_Load", "ISLAND_PhaseL1_Main_Load",
      "ISLAND_VL2N_Main", "ISLAND_FreqL2_Main", "ISLAND_VL2N_Load",
      "ISLAND_FreqL2_Load", "ISLAND_PhaseL2_Main_Load",
      "ISLAND_VL3N_Main", "ISLAND_FreqL3_Main", "ISLAND_VL3N_Load",
      "ISLAND_FreqL3_Load", "ISLAND_PhaseL3_Main_Load",
      "ISLAND_L1L2PhaseDelta", "ISLAND_L1L3PhaseDelta",
      "ISLAND_L2L3PhaseDelta", "ISLAND_GridState",
      "ISLAND_L1MicrogridOk", "ISLAND_L2MicrogridOk",
      "ISLAND_L3MicrogridOk", "ISLAND_ReadyForSynchronization",
      "ISLAND_GridConnected", "SYNC_ExternallyPowered",
      "SYNC_SiteSwitchEnabled", "METER_X_CTA_InstRealPower",
      "METER_X_CTB_InstRealPower", "METER_X_CTC_InstRealPower",
      "METER_X_CTA_InstReactivePower", "METER_X_CTB_InstReactivePower",
      "METER_X_CTC_InstReactivePower", "METER_X_LifetimeEnergyImport",
      "METER_X_LifetimeEnergyExport", "METER_X_VL1N", "METER_X_VL2N",
      "METER_X_VL3N", "METER_X_CTA_I", "METER_X_CTB_I", "METER_X_CTC_I",
      "METER_Y_CTA_InstRealPower", "METER_Y_CTB_InstRealPower",
      "METER_Y_CTC_InstRealPower", "METER_Y_CTA_InstReactivePower",
      "METER_Y_CTB_InstReactivePower", "METER_Y_CTC_InstReactivePower",
      "METER_Y_LifetimeEnergyImport", "METER_Y_LifetimeEnergyExport",
      "METER_Y_VL1N", "METER_Y_VL2N", "METER_Y_VL3N", "METER_Y_CTA_I",
      "METER_Y_CTB_I", "METER_Y_CTC_I"]
  | .temsa =>
    ["ISLAND_VL1N_Main", "ISLAND_FreqL1_Main", "ISLAND_VL1N_Load",
      "ISLAND_FreqL1_Load", "ISLAND_PhaseL1_Main_Load",
      "ISLAND_VL2N_Main", "ISLAND_FreqL2_Main", "ISLAND_VL2N_Load",
      "ISLAND_FreqL2_Load", "ISLAND_PhaseL2_Main_Load",
      "ISLAND_VL3N_Main", "ISLAND_FreqL3_Main", "ISLAND_VL3N_Load",
      "ISLAND_FreqL3_Load", "ISLAND_PhaseL3_Main_Load",
      "ISLAND_L1L2PhaseDelta", "ISLAND_L1L3PhaseDelta",
      "ISLAND_L2L3PhaseDelta", "ISLAND_GridState",
      "ISLAND_L1MicrogridOk", "ISLAND_L2MicrogridOk",
      "ISLAND_L3MicrogridOk", "ISLAND_ReadyForSynchronization",
      "ISLAND_GridConnected", "METER_Z_CTA_InstRealPower",
      "METER_Z_CTB_InstRealPower", "METER_Z_CTA_InstReactivePower",
      "METER_Z_CTB_InstReactivePower",
      "METER_Z_LifetimeEnergyNetImport",
      "METER_Z_LifetimeEnergyNetExport", "METER_Z_VL1G", "METER_Z_VL2G",
      "METER_Z_CTA_I", "METER_Z_CTB_I"]
  | .tethc =>
    ["THC_State", "THC_AmbientTemp"]
  | .tepod =>
    ["POD_nom_energy_to_be_charged", "POD_nom_energy_remaining",
      "POD_nom_full_pack_energy", "POD_available_charge_power",
      "POD_available_dischg_power", "POD_state", "POD_enable_line",
      "POD_ChargeComplete", "POD_DischargeComplete",
      "POD_PersistentlyFaulted", "POD_PermanentlyFaulted",
      "POD_ChargeRequest", "POD_ActiveHeating", "POD_CCVhold"]
  | .tepinv =>
    ["PINV_EnergyDischarged", "PINV_EnergyCharged", "PINV_VSplit1",
      "PINV_VSplit2", "PINV_PllFrequency", "PINV_PllLocked",
      "PINV_Pout", "PINV_Qout", "PINV_Vout", "PINV_Fout",
      "PINV_ReadyForGridForming", "PINV_State", "PINV_GridState",
      "PINV_HardwareEnableLine", "PINV_PowerLimiter"]
  | .pvac =>
    ["PVAC_Iout", "PVAC_VL1Ground", "PVAC_VL2Ground",
      "PVAC_VHvMinusChassisDC", "PVAC_PVCurrent_A", "PVAC_PVCurrent_B",
      "PVAC_PVCurrent_C", "PVAC_PVCurrent_D",
      "PVAC_PVMeasuredVoltage_A", "PVAC_PVMeasuredVoltage_B",
      "PVAC_PVMeasuredVoltage_C", "PVAC_PVMeasuredVoltage_D",
      "PVAC_PVMeasuredPower_A", "PVAC_PVMeasuredPower_B",
      "PVAC_PVMeasuredPower_C", "PVAC_PVMeasuredPower_D",
      "PVAC_LifetimeEnergyPV_Total", "PVAC_Vout", "PVAC_Fout",
      "PVAC_Pout", "PVAC_Qout", "PVAC_State", "PVAC_GridState",
      "PVAC_InvState", "PVAC_PvState_A", "PVAC_PvState_B",
      "PVAC_PvState_C", "PVAC_PvState_D", "PVI-PowerStatusSetpoint"]
  | .pvs =>
    ["PVS_vLL", "PVS_State", "PVS_SelfTestState", "PVS_EnableOutput",
      "PVS_StringA_Connected", "PVS_StringB_Connected",
      "PVS_StringC_Connected", "PVS_StringD_Connected"]
  | .teslaMeter => []
  | .teslaPV => []
  | .neurio =>
    ["NEURIO_CT0_Location", "NEURIO_CT0_InstRealPower"]
  | .dropped => []

/-- The message printed for a vital whose name is unknown to its class,
matching the per-class default format of the source (the TEMSA, TEPINV
and PVAC formats omit the class name, and the PVS format says TEPINV).
The dropped arm is unused. -/
def classUnknownMsg : Route → String → String
  | .ststsm, n => "Unknown STSTSM DeviceVital.Name " ++ n ++ "\n"
  | .tesync, n => "Unknown TESYNC DeviceVital.Name " ++ n ++ "\n"
  | .temsa, n => "Unknown DeviceVital.Name " ++ n ++ "\n"
  | .tethc, n => "Unknown TETHC DeviceVital.Name " ++ n ++ "\n"
  | .tepod, n => "Unknown TEPOD DeviceVital.Name " ++ n ++ "\n"
  | .tepinv, n => "Unknown DeviceVital.Name " ++ n ++ "\n"
  | .pvac, n => "Unknown DeviceVital.Name " ++ n ++ "\n"
  | .pvs, n => "Unknown TEPINV DeviceVital.Name " ++ n ++ "\n"
  | .teslaMeter, n => "Unknown TESLA Meter DeviceVital.Name " ++ n ++ "\n"
  | .teslaPV, n => "Unknown TESLA PV DeviceVital.Name " ++ n ++ "\n"
  | .neurio, n => "Unknown NEURIO DeviceVital.Name " ++ n ++ "\n"
  | .dropped, n => n

/-! ## Concrete inputs for the witnesses and counterexamples -/

/-- A wire-level device with a given din, no other identity fields, and
given attributes. -/
def deviceWithDin (din : String) (attrs : Option DeviceAttributes) : Device :=
  { din := some { value := din }
    partNumber := none
    serialNumber := none
    manufacturer := none
    componentParentDin := none
    firmwareVersion := none
    lastCommunicationTime := none
    deviceAttributes := attrs }

/-- A top-level entry with a given din, vitals and attributes and no
alerts. -/
def entryWith (din : String) (vitals : List DeviceVital)
    (attrs : Option DeviceAttributes) :
    SiteControllerConnectedDeviceWithVitals :=
  { device := { device := deviceWithDin din attrs }
    vitals := vitals
    alerts := [] }

/-- A recognized THC_State vital. -/
def vitalTHCState : DeviceVital :=
  { name := "THC_State", value := .stringValue "Operating" }

/-- A vital with a name unknown to the TETHC table. -/
def vitalTHCBogus : DeviceVital :=
  { name := "THC_Bogus", value := .floatValue 1 }

/-- A recognized THC_AmbientTemp vital (value 23.5). -/
def vitalTHCTemp : DeviceVital :=
  { name := "THC_AmbientTemp", value := .floatValue (47 / 2) }

/-- A thermal-controller entry carrying one bogus vital name between two
recognized ones. -/
def entryTETHCBogus : SiteControllerConnectedDeviceWithVitals :=
  entryWith "TETHC--1" [vitalTHCState, vitalTHCBogus, vitalTHCTemp] none

/-- An entry whose din matches no known class. -/
def entryBogusDin : SiteControllerConnectedDeviceWithVitals :=
  entryWith "BOGUS--1" [{ name := "X", value := .intValue 3 }] none

/-- A TESLA-prefixed entry carrying the PV-inverter-attributes arm with
nameplate power 5000 and zero vitals. -/
def entryTeslaPV : SiteControllerConnectedDeviceWithVitals :=
  entryWith "TESLA--1" []
    (some (.pvInverterAttributes { nameplateRealPowerW := 5000 }))

/-! ## Token validity (gotesla.go) -/

/-- Go struct `Token` (OAuth bearer token plus metadata).  The numeric
fields are Go `int`s. -/
structure Token where
  AccessToken : String
  TokenType : String
  ExpiresIn : Int
  RefreshToken : String
  CreatedAt : Int
  deriving DecidableEq, Repr, Inhabited

/-- Twos-complement wraparound of Go `int64` addition. -/
def int64wrap (n : Int) : Int :=
  (n + 2 ^ 63) % 2 ^ 64 - 2 ^ 63

/-- A token created at epoch second 0 with a ten-second lifetime. -/
def tokenExample : Token :=
  { AccessToken := ""
    TokenType := ""
    ExpiresIn := 10
    RefreshToken := ""
    CreatedAt := 0 }

/-- Function `TokenTimes`: start and end instants of a token, in epoch
seconds
(`time.Unix(created_at, 0)` and `time.Unix(created_at+expires_in, 0)`;
the `int64` sum wraps on overflow). -/
def TokenTimes (t : Token) : Int × Int :=
  (t.CreatedAt, int64wrap (t.CreatedAt + t.ExpiresIn))

/-- Function `CheckToken`: `start.Before(now) && now.Before(end)`.  Since
`time.Now()` has
sub-second precision, so instants are modelled as rationals (epoch
seconds); the token endpoints are whole seconds. -/
def CheckToken (t : Token) (now : Rat) : Bool :=
  let times := TokenTimes t
  decide ((times.1 : Rat) < now) && decide (now < (times.2 : Rat))

/-! ## Grid status (powerwall.go) -/

/-- Constant `gridStatusUpString`. -/
def gridStatusUpString : String := "SystemGridConnected"

/-- Constant `gridStatusDownString`. -/
def gridStatusDownString : String := "SystemIslandedActive"

/-- Constant `gridStatusTransitionString`. -/
def gridStatusTransitionString : String := "SystemTransitionToGrid"

/-- The `GridStatus` enumeration. -/
inductive GridStatus where
  | GridStatusUnknown
  | GridStatusDown
  | GridStatusTransition
  | GridStatusUp
  deriving DecidableEq, Repr, Inhabited

/-- Go struct `GridStatusResponse` (`grid_status` JSON field). -/
structure GridStatusResponse where
  GridStatus : String
  deriving DecidableEq, Repr, Inhabited

/-- Function `GetGridStatus`: fetches the body (`fetch` stands for the
`GetPowerwall` call), parses it (`unmarshalJson` stands for
`json.Unmarshal`), then maps the status string through the `switch`; the
second component is the returned error.  Fetch and parse failures return
`GridStatusUnknown` with the error; otherwise the switch result is returned
with a nil error. -/
def GetGridStatus (fetch : Except String (List Nat))
    (unmarshalJson : List Nat → Except String GridStatusResponse) :
    GridStatus × Option String :=
  match fetch with
  | .error e => (.GridStatusUnknown, some e)
  | .ok body =>
    match unmarshalJson body with
    | .error e => (.GridStatusUnknown, some e)
    | .ok gsr =>
      let gs : GridStatus :=
        if gsr.GridStatus = gridStatusUpString then .GridStatusUp
        else if gsr.GridStatus = gridStatusDownString then .GridStatusDown
        else if gsr.GridStatus = gridStatusTransitionString then
          .GridStatusTransition
        else .GridStatusUnknown
      (gs, none)

/-! ## Helper lemmas -/

theorem foldVitals_eq_foldl {α : Type} (f : α → DeviceVital → α × List String)
    (i : α) (l : List DeviceVital) :
    foldVitals f i l =
      l.foldl (fun acc v => ((f acc.1 v).1, acc.2 ++ (f acc.1 v).2)) (i, []) :=
  rfl

theorem foldl_writer {α : Type} (f : α → DeviceVital → α × List String) :
    ∀ (l : List DeviceVital) (i : α) (ms : List String),
      l.foldl (fun acc v => ((f acc.1 v).1, acc.2 ++ (f acc.1 v).2)) (i, ms) =
        ((foldVitals f i l).1, ms ++ (foldVitals f i l).2) := by
  intro l
  induction l with
  | nil => intro i ms; simp [foldVitals_eq_foldl]
  | cons v t ih =>
    intro i ms
    rw [List.foldl_cons, ih]
    have hr : foldVitals f i (v :: t) =
        ((foldVitals f (f i v).1 t).1,
          (f i v).2 ++ (foldVitals f (f i v).1 t).2) := by
      rw [foldVitals_eq_foldl, List.foldl_cons, ih]
      simp
    rw [hr]
    simp

theorem foldVitals_cons {α : Type} (f : α → DeviceVital → α × List String)
    (v : DeviceVital) (l : List DeviceVital) (i : α) :
    foldVitals f i (v :: l) =
      ((foldVitals f (f i v).1 l).1,
        (f i v).2 ++ (foldVitals f (f i v).1 l).2) := by
  rw [foldVitals_eq_foldl, List.foldl_cons, foldl_writer]
  simp

theorem foldVitals_append {α : Type} (f : α → DeviceVital → α × List String)
    (l1 l2 : List DeviceVital) (i : α) :
    foldVitals f i (l1 ++ l2) =
      ((foldVitals f (foldVitals f i l1).1 l2).1,
        (foldVitals f i l1).2 ++ (foldVitals f (foldVitals f i l1).1 l2).2) := by
  induction l1 generalizing i with
  | nil => simp [foldVitals_eq_foldl]
  | cons v t ih =>
    rw [List.cons_append, foldVitals_cons, foldVitals_cons, ih]
    simp

theorem processDevice_eq (vd : VitalDevices)
    (e : SiteControllerConnectedDeviceWithVitals) :
    processDevice vd e = (routeUpdate vd e, deviceLogs e) := by
  unfold processDevice routeUpdate deviceLogs routeOf
  by_cases h1 : strStartsWith "STSTSM" (mkDeviceCommon e).Din = true
  · simp only [if_pos h1]
    rfl
  · simp only [if_neg h1]
    by_cases h2 : strStartsWith "TESYNC" (mkDeviceCommon e).Din = true
    · simp only [if_pos h2]
      rfl
    · simp only [if_neg h2]
      by_cases h3 : strStartsWith "TEMSA" (mkDeviceCommon e).Din = true
      · simp only [if_pos h3]
        rfl
      · simp only [if_neg h3]
        by_cases h4 : strStartsWith "TETHC" (mkDeviceCommon e).Din = true
        · simp only [if_pos h4]
          rfl
        · simp only [if_neg h4]
          by_cases h5 : strStartsWith "TEPOD" (mkDeviceCommon e).Din = true
          · simp only [if_pos h5]
            rfl
          · simp only [if_neg h5]
            by_cases h6 : strStartsWith "TEPINV" (mkDeviceCommon e).Din = true
            · simp only [if_pos h6]
              rfl
            · simp only [if_neg h6]
              by_cases h7 : strStartsWith "PVAC" (mkDeviceCommon e).Din = true
              · simp only [if_pos h7]
                rfl
              · simp only [if_neg h7]
                by_cases h8 : strStartsWith "PVS" (mkDeviceCommon e).Din = true
                · simp only [if_pos h8]
                  rfl
                · simp only [if_neg h8]
                  by_cases h9 :
                      strStartsWith "TESLA" (mkDeviceCommon e).Din = true
                  · simp only [if_pos h9]
                    rcases hm :
                        getMeterAttributes e.device.device.deviceAttributes
                      with _ | m
                    · rcases hp : getPvInverterAttributes
                          e.device.device.deviceAttributes with _ | p
                      · simp only [hm, hp, if_pos h9]
                      · simp only [hm, hp, mkTESLAPV, tesla0PV,
                          Option.getD_some]
                    · simp only [hm, mkTESLAMeter, tesla0Meter,
                        Option.getD_some]
                  · simp only [if_neg h9]
                    by_cases h10 :
                        strStartsWith "NEURIO" (mkDeviceCommon e).Din = true
                    · simp only [if_pos h10]
                      rcases hma :
                          getMeterAttributes e.device.device.deviceAttributes
                        with _ | mm
                      · simp only [mkNEURIODev, hma]
                      · simp only [mkNEURIODev, hma]
                    · simp only [if_neg h10]

theorem vitalsStep_fst (acc : VitalDevices × List String)
    (e : SiteControllerConnectedDeviceWithVitals) :
    (vitalsStep acc e).1 = routeUpdate acc.1 e := by
  show (processDevice acc.1 e).1 = routeUpdate acc.1 e
  rw [processDevice_eq]

theorem routeUpdate_TETHCs (vd : VitalDevices)
    (e : SiteControllerConnectedDeviceWithVitals) :
    (routeUpdate vd e).TETHCs =
      vd.TETHCs ++ if routeOf e = Route.tethc then [mkTETHC e] else [] := by
  cases hr : routeOf e <;> simp [routeUpdate, hr]

theorem routeUpdate_TEPODs (vd : VitalDevices)
    (e : SiteControllerConnectedDeviceWithVitals) :
    (routeUpdate vd e).TEPODs =
      vd.TEPODs ++ if routeOf e = Route.tepod then [mkTEPOD e] else [] := by
  cases hr : routeOf e <;> simp [routeUpdate, hr]

theorem routeUpdate_TEPINVs (vd : VitalDevices)
    (e : SiteControllerConnectedDeviceWithVitals) :
    (routeUpdate vd e).TEPINVs =
      vd.TEPINVs ++ if routeOf e = Route.tepinv then [mkTEPINV e] else [] := by
  cases hr : routeOf e <;> simp [routeUpdate, hr]

theorem routeUpdate_PVACs (vd : VitalDevices)
    (e : SiteControllerConnectedDeviceWithVitals) :
    (routeUpdate vd e).PVACs =
      vd.PVACs ++ if routeOf e = Route.pvac then [mkPVAC e] else [] := by
  cases hr : routeOf e <;> simp [routeUpdate, hr]

theorem routeUpdate_PVSs (vd : VitalDevices)
    (e : SiteControllerConnectedDeviceWithVitals) :
    (routeUpdate vd e).PVSs =
      vd.PVSs ++ if routeOf e = Route.pvs then [mkPVS e] else [] := by
  cases hr : routeOf e <;> simp [routeUpdate, hr]

theorem routeUpdate_TESLAMeters (vd : VitalDevices)
    (e : SiteControllerConnectedDeviceWithVitals) :
    (routeUpdate vd e).TESLAMeters =
      vd.TESLAMeters ++
        if routeOf e = Route.teslaMeter then [mkTESLAMeter e] else [] := by
  cases hr : routeOf e <;> simp [routeUpdate, hr]

theorem routeUpdate_TESLAPVs (vd : VitalDevices)
    (e : SiteControllerConnectedDeviceWithVitals) :
    (routeUpdate vd e).TESLAPVs =
      vd.TESLAPVs ++
        if routeOf e = Route.teslaPV then [mkTESLAPV e] else [] := by
  cases hr : routeOf e <;> simp [routeUpdate, hr]

theorem routeUpdate_NEURIOs (vd : VitalDevices)
    (e : SiteControllerConnectedDeviceWithVitals) :
    (routeUpdate vd e).NEURIOs =
      vd.NEURIOs ++ if routeOf e = Route.neurio then [mkNEURIODev e] else [] := by
  cases hr : routeOf e <;> simp [routeUpdate, hr]

theorem routeUpdate_STSTSM (vd : VitalDevices)
    (e : SiteControllerConnectedDeviceWithVitals) :
    (routeUpdate vd e).STSTSM =
      if routeOf e = Route.ststsm then mkSTSTSM e else vd.STSTSM := by
  cases hr : routeOf e <;> simp [routeUpdate, hr]

theorem routeUpdate_TESYNC (vd : VitalDevices)
    (e : SiteControllerConnectedDeviceWithVitals) :
    (routeUpdate vd e).TESYNC =
      if routeOf e = Route.tesync then mkTESYNC e else vd.TESYNC := by
  cases hr : routeOf e <;> simp [routeUpdate, hr]

theorem routeUpdate_TEMSA (vd : VitalDevices)
    (e : SiteControllerConnectedDeviceWithVitals) :
    (routeUpdate vd e).TEMSA =
      if routeOf e = Route.temsa then mkTEMSA e else vd.TEMSA := by
  cases hr : routeOf e <;> simp [routeUpdate, hr]

theorem collTotal_routeUpdate (vd : VitalDevices)
    (e : SiteControllerConnectedDeviceWithVitals) :
    collTotal (routeUpdate vd e) =
      collTotal vd + if (routeOf e).isCollection then 1 else 0 := by
  cases hr : routeOf e <;>
    simp [routeUpdate, hr, collTotal, Route.isCollection] <;> omega


theorem loop_collTotal :
    ∀ (l : List SiteControllerConnectedDeviceWithVitals)
      (acc : VitalDevices × List String),
      collTotal ((l.foldl vitalsStep acc).1) =
        collTotal acc.1 + l.countP (fun e => (routeOf e).isCollection) := by
  intro l
  induction l with
  | nil => intro acc; simp
  | cons e t ih =>
    intro acc
    rw [List.foldl_cons, ih, List.countP_cons]
    rw [vitalsStep_fst, collTotal_routeUpdate]
    by_cases hc : (routeOf e).isCollection = true
    · simp [hc]
      try omega
    · simp [hc]
      try omega

theorem loop_collection {α : Type} (proj : VitalDevices → List α)
    (mk : SiteControllerConnectedDeviceWithVitals → α) (r0 : Route)
    (hupd : ∀ vd e, proj (routeUpdate vd e) =
      proj vd ++ if routeOf e = r0 then [mk e] else []) :
    ∀ (l : List SiteControllerConnectedDeviceWithVitals)
      (acc : VitalDevices × List String),
      proj ((l.foldl vitalsStep acc).1) =
        proj acc.1 ++ (l.filter (fun e => decide (routeOf e = r0))).map mk := by
  intro l
  induction l with
  | nil => intro acc; simp
  | cons e t ih =>
    intro acc
    rw [List.foldl_cons, ih, vitalsStep_fst, hupd]
    by_cases hre : routeOf e = r0
    · rw [List.filter_cons_of_pos (by simp [hre]), if_pos hre]
      simp
    · rw [List.filter_cons_of_neg (by simp [hre]), if_neg hre]
      simp

theorem loop_singleton {α : Type} (proj : VitalDevices → α)
    (mk : SiteControllerConnectedDeviceWithVitals → α) (r0 : Route)
    (hupd : ∀ vd e, proj (routeUpdate vd e) =
      if routeOf e = r0 then mk e else proj vd) :
    ∀ (l : List SiteControllerConnectedDeviceWithVitals)
      (acc : VitalDevices × List String),
      proj ((l.foldl vitalsStep acc).1) =
        match (l.filter (fun e => decide (routeOf e = r0))).getLast? with
        | some x => mk x
        | none => proj acc.1 := by
  intro l
  induction l with
  | nil => intro acc; rfl
  | cons e t ih =>
    intro acc
    rw [List.foldl_cons, ih]
    by_cases hre : routeOf e = r0
    · rw [List.filter_cons_of_pos (by simp [hre])]
      rcases hft : t.filter (fun x => decide (routeOf x = r0)) with _ | ⟨y, ys⟩
      · simp only [List.getLast?_singleton]
        rw [vitalsStep_fst, hupd, if_pos hre]
        rfl
      · rw [List.getLast?_cons_cons]
        have hne : (y :: ys).getLast?.isSome := by
          simp [List.getLast?_isSome]
        rcases hz : (y :: ys).getLast? with _ | z
        · rw [hz] at hne; simp at hne
        · rfl
    · rw [List.filter_cons_of_neg (by simp [hre])]
      rcases hft : t.filter (fun x => decide (routeOf x = r0)) with _ | ⟨y, ys⟩
      · simp only [List.getLast?_nil]
        rw [vitalsStep_fst, hupd, if_neg hre]
      · rfl


theorem countP_routes (l : List SiteControllerConnectedDeviceWithVitals) :
    l.countP (fun e => (routeOf e).isSingleton)
      + l.countP (fun e => (routeOf e).isCollection)
      + l.countP (fun e => decide (routeOf e = Route.dropped))
      = l.length := by
  induction l with
  | nil => rfl
  | cons e t ih =>
    rw [List.countP_cons, List.countP_cons, List.countP_cons,
      List.length_cons]
    have hone : (if (routeOf e).isSingleton = true then 1 else 0)
        + (if (routeOf e).isCollection = true then 1 else 0)
        + (if decide (routeOf e = Route.dropped) = true then 1 else 0)
        = 1 := by
      cases hr : routeOf e <;> decide
    omega

theorem collTotal_default : collTotal (default : VitalDevices) = 0 := rfl

/-- Folding the vitals over a vital that its class switch does not
recognize leaves the record unchanged. -/
theorem foldVitals_skip_vital {α : Type}
    (f : α → DeviceVital → α × List String) (b : DeviceVital) (m : String)
    (hb : ∀ r : α, f r b = (r, [m])) (vs1 vs2 : List DeviceVital) (i : α) :
    (foldVitals f i (vs1 ++ b :: vs2)).1 = (foldVitals f i (vs1 ++ vs2)).1 := by
  rw [foldVitals_append, foldVitals_append, foldVitals_cons, hb]

/-- Folding the vitals over a vital that its class switch does not
recognize puts the unknown-name message into the log. -/
theorem foldVitals_mem_vital {α : Type}
    (f : α → DeviceVital → α × List String) (b : DeviceVital) (m : String)
    (hb : ∀ r : α, f r b = (r, [m])) (vs1 vs2 : List DeviceVital) (i : α) :
    m ∈ (foldVitals f i (vs1 ++ b :: vs2)).2 := by
  rw [foldVitals_append, foldVitals_cons, hb]
  simp

/-- The default arm of the STSTSM vital switch: a name outside the class
table leaves the record unchanged and prints the unknown-name message. -/
theorem assignSTSTSM_unknown (r : STSTSM) (v : DeviceVital)
    (h : v.name ∉ classKnownNames Route.ststsm) :
    assignSTSTSM r v = (r, [classUnknownMsg Route.ststsm v.name]) := by
  have d1 : v.name ≠ "STSTSM-Location" := by
    intro hx; rw [hx] at h; exact h (by decide)
  unfold assignSTSTSM classUnknownMsg
  rw [if_neg d1]

/-- The default arm of the TESYNC vital switch: a name outside the class
table leaves the record unchanged and prints the unknown-name message. -/
theorem assignTESYNC_unknown (r : TESYNC) (v : DeviceVital)
    (h : v.name ∉ classKnownNames Route.tesync) :
    assignTESYNC r v = (r, [classUnknownMsg Route.tesync v.name]) := by
  have d1 : v.name ≠ "ISLAND_VL1N_Main" := by
    intro hx; rw [hx] at h; exact h (by decide)
  have d2 : v.name ≠ "ISLAND_FreqL1_Main" := by
    intro hx; rw [hx] at h; exact h (by decide)
  have d3 : v.name ≠ "ISLAND_VL1N_Load" := by
    intro hx; rw [hx] at h; exact h (by decide)
  have d4 : v.name ≠ "ISLAND_FreqL1_Load" := by
    intro hx; rw [hx] at h; exact h (by decide)
  have d5 : v.name ≠ "ISLAND_PhaseL1_Main_Load" := by
    intro hx; rw [hx] at h; exact h (by decide)
  have d6 : v.name ≠ "ISLAND_VL2N_Main" := by
    intro hx; rw [hx] at h; exact h (by decide)
  have d7 : v.name ≠ "ISLAND_FreqL2_Main" := by
    intro hx; rw [hx] at h; exact h (by decide)
  have d8 : v.name ≠ "ISLAND_VL2N_Load" := by
    intro hx; rw [hx] at h; exact h (by decide)
  have d9 : v.name ≠ "ISLAND_FreqL2_Load" := by
    intro hx; rw [hx] at h; exact h (by decide)
  have d10 : v.name ≠ "ISLAND_PhaseL2_Main_Load" := by
    intro hx; rw [hx] at h; exact h (by decide)
  have d11 : v.name ≠ "ISLAND_VL3N_Main" := by
    intro hx; rw [hx] at h; exact h (by decide)
  have d12 : v.name ≠ "ISLAND_FreqL3_Main" := by
    intro hx; rw [hx] at h; exact h (by decide)
  have d13 : v.name ≠ "ISLAND_VL3N_Load" := by
    intro hx; rw [hx] at h; exact h (by decide)
  have d14 : v.name ≠ "ISLAND_FreqL3_Load" := by
    intro hx; rw [hx] at h; exact h (by decide)
  have d15 : v.name ≠ "ISLAND_PhaseL3_Main_Load" := by
    intro hx; rw [hx] at h; exact h (by decide)
  have d16 : v.name ≠ "ISLAND_L1L2PhaseDelta" := by
    intro hx; rw [hx] at h; exact h (by decide)
  have d17 : v.name ≠ "ISLAND_L1L3PhaseDelta" := by
    intro hx; rw [hx] at h; exact h (by decide)
  have d18 : v.name ≠ "ISLAND_L2L3PhaseDelta" := by
    intro hx; rw [hx] at h; exact h (by decide)
  have d19 : v.name ≠ "ISLAND_GridState" := by
    intro hx; rw [hx] at h; exact h (by decide)
  have d20 : v.name ≠ "ISLAND_L1MicrogridOk" := by
    intro hx; rw [hx] at h; exact h (by decide)
  have d21 : v.name ≠ "ISLAND_L2MicrogridOk" := by
    intro hx; rw [hx] at h; exact h (by decide)
  have d22 : v.name ≠ "ISLAND_L3MicrogridOk" := by
    intro hx; rw [hx] at h; exact h (by decide)
  have d23 : v.name ≠ "ISLAND_ReadyForSynchronization" := by
    intro hx; rw [hx] at h; exact h (by decide)
  have d24 : v.name ≠ "ISLAND_GridConnected" := by
    intro hx; rw [hx] at h; exact h (by decide)
  have d25 : v.name ≠ "SYNC_ExternallyPowered" := by
    intro hx; rw [hx] at h; exact h (by decide)
  have d26 : v.name ≠ "SYNC_SiteSwitchEnabled" := by
    intro hx; rw [hx] at h; exact h (by decide)
  have d27 : v.name ≠ "METER_X_CTA_InstRealPower" := by
    intro hx; rw [hx] at h; exact h (by decide)
  have d28 : v.name ≠ "METER_X_CTB_InstRealPower" := by
    intro hx; rw [hx] at h; exact h (by decide)
  have d29 : v.name ≠ "METER_X_CTC_InstRealPower" := by
    intro hx; rw [hx] at h; exact h (by decide)
  have d30 : v.name ≠ "METER_X_CTA_InstReactivePower" := by
    intro hx; rw [hx] at h; exact h (by decide)
  have d31 : v.name ≠ "METER_X_CTB_InstReactivePower" := by
    intro hx; rw [hx] at h; exact h (by decide)
  have d32 : v.name ≠ "METER_X_CTC_InstReactivePower" := by
    intro hx; rw [hx] at h; exact h (by decide)
  have d33 : v.name ≠ "METER_X_LifetimeEnergyImport" := by
    intro hx; rw [hx] at h; exact h (by decide)
  have d34 : v.name ≠ "METER_X_LifetimeEnergyExport" := by
    intro hx; rw [hx] at h; exact h (by decide)
  have d35 : v.name ≠ "METER_X_VL1N" := by
    intro hx; rw [hx] at h; exact h (by decide)
  have d36 : v.name ≠ "METER_X_VL2N" := by
    intro hx; rw [hx] at h; exact h (by decide)
  have d37 : v.name ≠ "METER_X_VL3N" := by
    intro hx; rw [hx] at h; exact h (by decide)
  have d38 : v.name ≠ "METER_X_CTA_I" := by
    intro hx; rw [hx] at h; exact h (by decide)
  have d39 : v.name ≠ "METER_X_CTB_I" := by
    intro hx; rw [hx] at h; exact h (by decide)
  have d40 : v.name ≠ "METER_X_CTC_I" := by
    intro hx; rw [hx] at h; exact h (by decide)
  have d41 : v.name ≠ "METER_Y_CTA_InstRealPower" := by
    intro hx; rw [hx] at h; exact h (by decide)
  have d42 : v.name ≠ "METER_Y_CTB_InstRealPower" := by
    intro hx; rw [hx] at h; exact h (by decide)
  have d43 : v.name ≠ "METER_Y_CTC_InstRealPower" := by
    intro hx; rw [hx] at h; exact h (by decide)
  have d44 : v.name ≠ "METER_Y_CTA_InstReactivePower" := by
    intro hx; rw [hx] at h; exact h (by decide)
  have d45 : v.name ≠ "METER_Y_CTB_InstReactivePower" := by
    intro hx; rw [hx] at h; exact h (by decide)
  have d46 : v.name ≠ "METER_Y_CTC_InstReactivePower" := by
    intro hx; rw [hx] at h; exact h (by decide)
  have d47 : v.name ≠ "METER_Y_LifetimeEnergyImport" := by
    intro hx; rw [hx] at h; exact h (by decide)
  have d48 : v.name ≠ "METER_Y_LifetimeEnergyExport" := by
    intro hx; rw [hx] at h; exact h (by decide)
  have d49 : v.name ≠ "METER_Y_VL1N" := by
    intro hx; rw [hx] at h; exact h (by decide)
  have d50 : v.name ≠ "METER_Y_VL2N" := by
    intro hx; rw [hx] at h; exact h (by decide)
  have d51 : v.name ≠ "METER_Y_VL3N" := by
    intro hx; rw [hx] at h; exact h (by decide)
  have d52 : v.name ≠ "METER_Y_CTA_I" := by
    intro hx; rw [hx] at h; exact h (by decide)
  have d53 : v.name ≠ "METER_Y_CTB_I" := by
    intro hx; rw [hx] at h; exact h (by decide)
  have d54 : v.name ≠ "METER_Y_CTC_I" := by
    intro hx; rw [hx] at h; exact h (by decide)
  unfold assignTESYNC classUnknownMsg
  rw [if_neg d1, if_neg d2, if_neg d3, if_neg d4, if_neg d5, if_neg d6,
    if_neg d7, if_neg d8, if_neg d9, if_neg d10, if_neg d11, if_neg d12,
    if_neg d13, if_neg d14, if_neg d15, if_neg d16, if_neg d17, if_neg
    d18, if_neg d19, if_neg d20, if_neg d21, if_neg d22, if_neg d23,
    if_neg d24, if_neg d25, if_neg d26, if_neg d27, if_neg d28, if_neg
    d29, if_neg d30, if_neg d31, if_neg d32, if_neg d33, if_neg d34,
    if_neg d35, if_neg d36, if_neg d37, if_neg d38, if_neg d39, if_neg
    d40, if_neg d41, if_neg d42, if_neg d43, if_neg d44, if_neg d45,
    if_neg d46, if_neg d47, if_neg d48, if_neg d49, if_neg d50, if_neg
    d51, if_neg d52, if_neg d53, if_neg d54]

/-- The default arm of the TEMSA vital switch: a name outside the class
table leaves the record unchanged and prints the unknown-name message. -/
theorem assignTEMSA_unknown (r : TEMSA) (v : DeviceVital)
    (h : v.name ∉ classKnownNames Route.temsa) :
    assignTEMSA r v = (r, [classUnknownMsg Route.temsa v.name]) := by
  have d1 : v.name ≠ "ISLAND_VL1N_Main" := by
    intro hx; rw [hx] at h; exact h (by decide)
  have d2 : v.name ≠ "ISLAND_FreqL1_Main" := by
    intro hx; rw [hx] at h; exact h (by decide)
  have d3 : v.name ≠ "ISLAND_VL1N_Load" := by
    intro hx; rw [hx] at h; exact h (by decide)
  have d4 : v.name ≠ "ISLAND_FreqL1_Load" := by
    intro hx; rw [hx] at h; exact h (by decide)
  have d5 : v.name ≠ "ISLAND_PhaseL1_Main_Load" := by
    intro hx; rw [hx] at h; exact h (by decide)
  have d6 : v.name ≠ "ISLAND_VL2N_Main" := by
    intro hx; rw [hx] at h; exact h (by decide)
  have d7 : v.name ≠ "ISLAND_FreqL2_Main" := by
    intro hx; rw [hx] at h; exact h (by decide)
  have d8 : v.name ≠ "ISLAND_VL2N_Load" := by
    intro hx; rw [hx] at h; exact h (by decide)
  have d9 : v.name ≠ "ISLAND_FreqL2_Load" := by
    intro hx; rw [hx] at h; exact h (by decide)
  have d10 : v.name ≠ "ISLAND_PhaseL2_Main_Load" := by
    intro hx; rw [hx] at h; exact h (by decide)
  have d11 : v.name ≠ "ISLAND_VL3N_Main" := by
    intro hx; rw [hx] at h; exact h (by decide)
  have d12 : v.name ≠ "ISLAND_FreqL3_Main" := by
    intro hx; rw [hx] at h; exact h (by decide)
  have d13 : v.name ≠ "ISLAND_VL3N_Load" := by
    intro hx; rw [hx] at h; exact h (by decide)
  have d14 : v.name ≠ "ISLAND_FreqL3_Load" := by
    intro hx; rw [hx] at h; exact h (by decide)
  have d15 : v.name ≠ "ISLAND_PhaseL3_Main_Load" := by
    intro hx; rw [hx] at h; exact h (by decide)
  have d16 : v.name ≠ "ISLAND_L1L2PhaseDelta" := by
    intro hx; rw [hx] at h; exact h (by decide)
  have d17 : v.name ≠ "ISLAND_L1L3PhaseDelta" := by
    intro hx; rw [hx] at h; exact h (by decide)
  have d18 : v.name ≠ "ISLAND_L2L3PhaseDelta" := by
    intro hx; rw [hx] at h; exact h (by decide)
  have d19 : v.name ≠ "ISLAND_GridState" := by
    intro hx; rw [hx] at h; exact h (by decide)
  have d20 : v.name ≠ "ISLAND_L1MicrogridOk" := by
    intro hx; rw [hx] at h; exact h (by decide)
  have d21 : v.name ≠ "ISLAND_L2MicrogridOk" := by
    intro hx; rw [hx] at h; exact h (by decide)
  have d22 : v.name ≠ "ISLAND_L3MicrogridOk" := by
    intro hx; rw [hx] at h; exact h (by decide)
  have d23 : v.name ≠ "ISLAND_ReadyForSynchronization" := by
    intro hx; rw [hx] at h; exact h (by decide)
  have d24 : v.name ≠ "ISLAND_GridConnected" := by
    intro hx; rw [hx] at h; exact h (by decide)
  have d25 : v.name ≠ "METER_Z_CTA_InstRealPower" := by
    intro hx; rw [hx] at h; exact h (by decide)
  have d26 : v.name ≠ "METER_Z_CTB_InstRealPower" := by
    intro hx; rw [hx] at h; exact h (by decide)
  have d27 : v.name ≠ "METER_Z_CTA_InstReactivePower" := by
    intro hx; rw [hx] at h; exact h (by decide)
  have d28 : v.name ≠ "METER_Z_CTB_InstReactivePower" := by
    intro hx; rw [hx] at h; exact h (by decide)
  have d29 : v.name ≠ "METER_Z_LifetimeEnergyNetImport" := by
    intro hx; rw [hx] at h; exact h (by decide)
  have d30 : v.name ≠ "METER_Z_LifetimeEnergyNetExport" := by
    intro hx; rw [hx] at h; exact h (by decide)
  have d31 : v.name ≠ "METER_Z_VL1G" := by
    intro hx; rw [hx] at h; exact h (by decide)
  have d32 : v.name ≠ "METER_Z_VL2G" := by
    intro hx; rw [hx] at h; exact h (by decide)
  have d33 : v.name ≠ "METER_Z_CTA_I" := by
    intro hx; rw [hx] at h; exact h (by decide)
  have d34 : v.name ≠ "METER_Z_CTB_I" := by
    intro hx; rw [hx] at h; exact h (by decide)
  unfold assignTEMSA classUnknownMsg
  rw [if_neg d1, if_neg d2, if_neg d3, if_neg d4, if_neg d5, if_neg d6,
    if_neg d7, if_neg d8, if_neg d9, if_neg d10, if_neg d11, if_neg d12,
    if_neg d13, if_neg d14, if_neg d15, if_neg d16, if_neg d17, if_neg
    d18, if_neg d19, if_neg d20, if_neg d21, if_neg d22, if_neg d23,
    if_neg d24, if_neg d25, if_neg d26, if_neg d27, if_neg d28, if_neg
    d29, if_neg d30, if_neg d31, if_neg d32, if_neg d33, if_neg d34]

/-- The default arm of the TETHC vital switch: a name outside the class
table leaves the record unchanged and prints the unknown-name message. -/
theorem assignTETHC_unknown (r : TETHC) (v : DeviceVital)
    (h : v.name ∉ classKnownNames Route.tethc) :
    assignTETHC r v = (r, [classUnknownMsg Route.tethc v.name]) := by
  have d1 : v.name ≠ "THC_State" := by
    intro hx; rw [hx] at h; exact h (by decide)
  have d2 : v.name ≠ "THC_AmbientTemp" := by
    intro hx; rw [hx] at h; exact h (by decide)
  unfold assignTETHC classUnknownMsg
  rw [if_neg d1, if_neg d2]

/-- The default arm of the TEPOD vital switch: a name outside the class
table leaves the record unchanged and prints the unknown-name message. -/
theorem assignTEPOD_unknown (r : TEPOD) (v : DeviceVital)
    (h : v.name ∉ classKnownNames Route.tepod) :
    assignTEPOD r v = (r, [classUnknownMsg Route.tepod v.name]) := by
  have d1 : v.name ≠ "POD_nom_energy_to_be_charged" := by
    intro hx; rw [hx] at h; exact h (by decide)
  have d2 : v.name ≠ "POD_nom_energy_remaining" := by
    intro hx; rw [hx] at h; exact h (by decide)
  have d3 : v.name ≠ "POD_nom_full_pack_energy" := by
    intro hx; rw [hx] at h; exact h (by decide)
  have d4 : v.name ≠ "POD_available_charge_power" := by
    intro hx; rw [hx] at h; exact h (by decide)
  have d5 : v.name ≠ "POD_available_dischg_power" := by
    intro hx; rw [hx] at h; exact h (by decide)
  have d6 : v.name ≠ "POD_state" := by
    intro hx; rw [hx] at h; exact h (by decide)
  have d7 : v.name ≠ "POD_enable_line" := by
    intro hx; rw [hx] at h; exact h (by decide)
  have d8 : v.name ≠ "POD_ChargeComplete" := by
    intro hx; rw [hx] at h; exact h (by decide)
  have d9 : v.name ≠ "POD_DischargeComplete" := by
    intro hx; rw [hx] at h; exact h (by decide)
  have d10 : v.name ≠ "POD_PersistentlyFaulted" := by
    intro hx; rw [hx] at h; exact h (by decide)
  have d11 : v.name ≠ "POD_PermanentlyFaulted" := by
    intro hx; rw [hx] at h; exact h (by decide)
  have d12 : v.name ≠ "POD_ChargeRequest" := by
    intro hx; rw [hx] at h; exact h (by decide)
  have d13 : v.name ≠ "POD_ActiveHeating" := by
    intro hx; rw [hx] at h; exact h (by decide)
  have d14 : v.name ≠ "POD_CCVhold" := by
    intro hx; rw [hx] at h; exact h (by decide)
  unfold assignTEPOD classUnknownMsg
  rw [if_neg d1, if_neg d2, if_neg d3, if_neg d4, if_neg d5, if_neg d6,
    if_neg d7, if_neg d8, if_neg d9, if_neg d10, if_neg d11, if_neg d12,
    if_neg d13, if_neg d14]

/-- The default arm of the TEPINV vital switch: a name outside the class
table leaves the record unchanged and prints the unknown-name message. -/
theorem assignTEPINV_unknown (r : TEPINV) (v : DeviceVital)
    (h : v.name ∉ classKnownNames Route.tepinv) :
    assignTEPINV r v = (r, [classUnknownMsg Route.tepinv v.name]) := by
  have d1 : v.name ≠ "PINV_EnergyDischarged" := by
    intro hx; rw [hx] at h; exact h (by decide)
  have d2 : v.name ≠ "PINV_EnergyCharged" := by
    intro hx; rw [hx] at h; exact h (by decide)
  have d3 : v.name ≠ "PINV_VSplit1" := by
    intro hx; rw [hx] at h; exact h (by decide)
  have d4 : v.name ≠ "PINV_VSplit2" := by
    intro hx; rw [hx] at h; exact h (by decide)
  have d5 : v.name ≠ "PINV_PllFrequency" := by
    intro hx; rw [hx] at h; exact h (by decide)
  have d6 : v.name ≠ "PINV_PllLocked" := by
    intro hx; rw [hx] at h; exact h (by decide)
  have d7 : v.name ≠ "PINV_Pout" := by
    intro hx; rw [hx] at h; exact h (by decide)
  have d8 : v.name ≠ "PINV_Qout" := by
    intro hx; rw [hx] at h; exact h (by decide)
  have d9 : v.name ≠ "PINV_Vout" := by
    intro hx; rw [hx] at h; exact h (by decide)
  have d10 : v.name ≠ "PINV_Fout" := by
    intro hx; rw [hx] at h; exact h (by decide)
  have d11 : v.name ≠ "PINV_ReadyForGridForming" := by
    intro hx; rw [hx] at h; exact h (by decide)
  have d12 : v.name ≠ "PINV_State" := by
    intro hx; rw [hx] at h; exact h (by decide)
  have d13 : v.name ≠ "PINV_GridState" := by
    intro hx; rw [hx] at h; exact h (by decide)
  have d14 : v.name ≠ "PINV_HardwareEnableLine" := by
    intro hx; rw [hx] at h; exact h (by decide)
  have d15 : v.name ≠ "PINV_PowerLimiter" := by
    intro hx; rw [hx] at h; exact h (by decide)
  unfold assignTEPINV classUnknownMsg
  rw [if_neg d1, if_neg d2, if_neg d3, if_neg d4, if_neg d5, if_neg d6,
    if_neg d7, if_neg d8, if_neg d9, if_neg d10, if_neg d11, if_neg d12,
    if_neg d13, if_neg d14, if_neg d15]

/-- The default arm of the PVAC vital switch: a name outside the class
table leaves the record unchanged and prints the unknown-name message. -/
theorem assignPVAC_unknown (r : PVAC) (v : DeviceVital)
    (h : v.name ∉ classKnownNames Route.pvac) :
    assignPVAC r v = (r, [classUnknownMsg Route.pvac v.name]) := by
  have d1 : v.name ≠ "PVAC_Iout" := by
    intro hx; rw [hx] at h; exact h (by decide)
  have d2 : v.name ≠ "PVAC_VL1Ground" := by
    intro hx; rw [hx] at h; exact h (by decide)
  have d3 : v.name ≠ "PVAC_VL2Ground" := by
    intro hx; rw [hx] at h; exact h (by decide)
  have d4 : v.name ≠ "PVAC_VHvMinusChassisDC" := by
    intro hx; rw [hx] at h; exact h (by decide)
  have d5 : v.name ≠ "PVAC_PVCurrent_A" := by
    intro hx; rw [hx] at h; exact h (by decide)
  have d6 : v.name ≠ "PVAC_PVCurrent_B" := by
    intro hx; rw [hx] at h; exact h (by decide)
  have d7 : v.name ≠ "PVAC_PVCurrent_C" := by
    intro hx; rw [hx] at h; exact h (by decide)
  have d8 : v.name ≠ "PVAC_PVCurrent_D" := by
    intro hx; rw [hx] at h; exact h (by decide)
  have d9 : v.name ≠ "PVAC_PVMeasuredVoltage_A" := by
    intro hx; rw [hx] at h; exact h (by decide)
  have d10 : v.name ≠ "PVAC_PVMeasuredVoltage_B" := by
    intro hx; rw [hx] at h; exact h (by decide)
  have d11 : v.name ≠ "PVAC_PVMeasuredVoltage_C" := by
    intro hx; rw [hx] at h; exact h (by decide)
  have d12 : v.name ≠ "PVAC_PVMeasuredVoltage_D" := by
    intro hx; rw [hx] at h; exact h (by decide)
  have d13 : v.name ≠ "PVAC_PVMeasuredPower_A" := by
    intro hx; rw [hx] at h; exact h (by decide)
  have d14 : v.name ≠ "PVAC_PVMeasuredPower_B" := by
    intro hx; rw [hx] at h; exact h (by decide)
  have d15 : v.name ≠ "PVAC_PVMeasuredPower_C" := by
    intro hx; rw [hx] at h; exact h (by decide)
  have d16 : v.name ≠ "PVAC_PVMeasuredPower_D" := by
    intro hx; rw [hx] at h; exact h (by decide)
  have d17 : v.name ≠ "PVAC_LifetimeEnergyPV_Total" := by
    intro hx; rw [hx] at h; exact h (by decide)
  have d18 : v.name ≠ "PVAC_Vout" := by
    intro hx; rw [hx] at h; exact h (by decide)
  have d19 : v.name ≠ "PVAC_Fout" := by
    intro hx; rw [hx] at h; exact h (by decide)
  have d20 : v.name ≠ "PVAC_Pout" := by
    intro hx; rw [hx] at h; exact h (by decide)
  have d21 : v.name ≠ "PVAC_Qout" := by
    intro hx; rw [hx] at h; exact h (by decide)
  have d22 : v.name ≠ "PVAC_State" := by
    intro hx; rw [hx] at h; exact h (by decide)
  have d23 : v.name ≠ "PVAC_GridState" := by
    intro hx; rw [hx] at h; exact h (by decide)
  have d24 : v.name ≠ "PVAC_InvState" := by
    intro hx; rw [hx] at h; exact h (by decide)
  have d25 : v.name ≠ "PVAC_PvState_A" := by
    intro hx; rw [hx] at h; exact h (by decide)
  have d26 : v.name ≠ "PVAC_PvState_B" := by
    intro hx; rw [hx] at h; exact h (by decide)
  have d27 : v.name ≠ "PVAC_PvState_C" := by
    intro hx; rw [hx] at h; exact h (by decide)
  have d28 : v.name ≠ "PVAC_PvState_D" := by
    intro hx; rw [hx] at h; exact h (by decide)
  have d29 : v.name ≠ "PVI-PowerStatusSetpoint" := by
    intro hx; rw [hx] at h; exact h (by decide)
  unfold assignPVAC classUnknownMsg
  rw [if_neg d1, if_neg d2, if_neg d3, if_neg d4, if_neg d5, if_neg d6,
    if_neg d7, if_neg d8, if_neg d9, if_neg d10, if_neg d11, if_neg d12,
    if_neg d13, if_neg d14, if_neg d15, if_neg d16, if_neg d17, if_neg
    d18, if_neg d19, if_neg d20, if_neg d21, if_neg d22, if_neg d23,
    if_neg d24, if_neg d25, if_neg d26, if_neg d27, if_neg d28, if_neg d29]

/-- The default arm of the PVS vital switch: a name outside the class
table leaves the record unchanged and prints the unknown-name message. -/
theorem assignPVS_unknown (r : PVS) (v : DeviceVital)
    (h : v.name ∉ classKnownNames Route.pvs) :
    assignPVS r v = (r, [classUnknownMsg Route.pvs v.name]) := by
  have d1 : v.name ≠ "PVS_vLL" := by
    intro hx; rw [hx] at h; exact h (by decide)
  have d2 : v.name ≠ "PVS_State" := by
    intro hx; rw [hx] at h; exact h (by decide)
  have d3 : v.name ≠ "PVS_SelfTestState" := by
    intro hx; rw [hx] at h; exact h (by decide)
  have d4 : v.name ≠ "PVS_EnableOutput" := by
    intro hx; rw [hx] at h; exact h (by decide)
  have d5 : v.name ≠ "PVS_StringA_Connected" := by
    intro hx; rw [hx] at h; exact h (by decide)
  have d6 : v.name ≠ "PVS_StringB_Connected" := by
    intro hx; rw [hx] at h; exact h (by decide)
  have d7 : v.name ≠ "PVS_StringC_Connected" := by
    intro hx; rw [hx] at h; exact h (by decide)
  have d8 : v.name ≠ "PVS_StringD_Connected" := by
    intro hx; rw [hx] at h; exact h (by decide)
  unfold assignPVS classUnknownMsg
  rw [if_neg d1, if_neg d2, if_neg d3, if_neg d4, if_neg d5, if_neg d6,
    if_neg d7, if_neg d8]

/-- The default arm of the TESLAMeter vital switch: a name outside the class
table leaves the record unchanged and prints the unknown-name message. -/
theorem assignTESLAMeter_unknown (r : TESLAMeter) (v : DeviceVital) :
    assignTESLAMeter r v = (r, [classUnknownMsg Route.teslaMeter v.name]) := rfl

/-- The default arm of the TESLAPV vital switch: a name outside the class
table leaves the record unchanged and prints the unknown-name message. -/
theorem assignTESLAPV_unknown (r : TESLAPV) (v : DeviceVital) :
    assignTESLAPV r v = (r, [classUnknownMsg Route.teslaPV v.name]) := rfl

/-- The default arm of the NEURIO vital switch: a name outside the class
table leaves the record unchanged and prints the unknown-name message. -/
theorem assignNEURIO_unknown (r : NEURIO) (v : DeviceVital)
    (h : v.name ∉ classKnownNames Route.neurio) :
    assignNEURIO r v = (r, [classUnknownMsg Route.neurio v.name]) := by
  have d1 : v.name ≠ "NEURIO_CT0_Location" := by
    intro hx; rw [hx] at h; exact h (by decide)
  have d2 : v.name ≠ "NEURIO_CT0_InstRealPower" := by
    intro hx; rw [hx] at h; exact h (by decide)
  unfold assignNEURIO classUnknownMsg
  rw [if_neg d1, if_neg d2]

theorem foldVitals_assignTESLAPV_fst (vs : List DeviceVital) :
    ∀ (r : TESLAPV), (foldVitals assignTESLAPV r vs).1 = r := by
  induction vs with
  | nil => intro r; rfl
  | cons v t ih =>
    intro r
    rw [foldVitals_cons]
    exact ih _


/-! ## Claim theorems -/

/-- C1: every top-level entry of a decoded wire buffer is routed into
exactly one of a singleton slot, a collection append, or dropped; the
number of entries assigned to singleton slots plus the sum of all
collection lengths of the output aggregate plus the number of dropped
entries equals the number of entries. -/
theorem getVitals_entry_count_partition (d : DevicesWithVitals) :
    d.devices.countP (fun e => (routeOf e).isSingleton)
      + collTotal (getVitalsFromDevices d).1
      + d.devices.countP (fun e => decide (routeOf e = Route.dropped))
      = d.devices.length := by
  have hc : collTotal (getVitalsFromDevices d).1 =
      d.devices.countP (fun e => (routeOf e).isCollection) := by
    show collTotal ((d.devices.foldl vitalsStep (default, [])).1) = _
    rw [loop_collTotal]
    simp [collTotal_default]
  rw [hc]
  exact countP_routes d.devices

/-- C2 counterexample: a buffer holding one device with din BOGUS--1 is
dropped from the aggregate, but the decode prints nothing at all — no
warning is logged, contrary to the claim. -/
theorem getVitals_bogus_entry_no_warning_logged :
    (getVitalsFromDevices { devices := [entryBogusDin] }).1 = default ∧
    (getVitalsFromDevices { devices := [entryBogusDin] }).2 = [] := by
  constructor <;> rfl

/-- C2 amended: a device entry whose din starts with none of the known
prefixes is dropped from the aggregate silently — it contributes to no
slot and no collection, and no message is printed (the dispatch chain of
GetVitals has no final else branch). -/
theorem getVitals_unknown_class_dropped_silently (vd : VitalDevices)
    (e : SiteControllerConnectedDeviceWithVitals)
    (k1 : strStartsWith "STSTSM" (mkDeviceCommon e).Din = false)
    (k2 : strStartsWith "TESYNC" (mkDeviceCommon e).Din = false)
    (k3 : strStartsWith "TEMSA" (mkDeviceCommon e).Din = false)
    (k4 : strStartsWith "TETHC" (mkDeviceCommon e).Din = false)
    (k5 : strStartsWith "TEPOD" (mkDeviceCommon e).Din = false)
    (k6 : strStartsWith "TEPINV" (mkDeviceCommon e).Din = false)
    (k7 : strStartsWith "PVAC" (mkDeviceCommon e).Din = false)
    (k8 : strStartsWith "PVS" (mkDeviceCommon e).Din = false)
    (k9 : strStartsWith "TESLA" (mkDeviceCommon e).Din = false)
    (k10 : strStartsWith "NEURIO" (mkDeviceCommon e).Din = false) :
    processDevice vd e = (vd, []) := by
  unfold processDevice
  simp only [k1, k2, k3, k4, k5, k6, k7, k8, k9, k10, Bool.false_eq_true,
    if_false]

/-- C2 witness: the amended statement applied to the BOGUS--1 entry. -/
theorem getVitals_unknown_class_dropped_silently_witness :
    processDevice default entryBogusDin = (default, []) :=
  getVitals_unknown_class_dropped_silently default entryBogusDin
    rfl rfl rfl rfl rfl rfl rfl rfl rfl rfl

/-- C3 counterexample: at the instant now equal to created_at (token
created at epoch second 0, lifetime 10, now = 0) the claim asserts the
token is valid, but CheckToken returns false. -/
theorem checkToken_false_at_created_at :
    CheckToken tokenExample 0 = false ∧
    ((tokenExample.CreatedAt : Rat) ≤ 0 ∧
      (0 : Rat) <
        ((tokenExample.CreatedAt + tokenExample.ExpiresIn : Int) : Rat)) := by
  refine ⟨by decide, by norm_num [tokenExample], by norm_num [tokenExample]⟩

/-- C3 amended: CheckToken is true exactly when the current time lies in
the open interval from created_at to created_at plus expires_in — both
endpoint comparisons are strict, so a token is reported invalid at the
instant now equal to created_at (assuming the int64 sum does not
overflow). -/
theorem checkToken_iff_strict_interval (t : Token) (now : Rat)
    (hlo : -(2 ^ 63) ≤ t.CreatedAt + t.ExpiresIn)
    (hhi : t.CreatedAt + t.ExpiresIn < 2 ^ 63) :
    CheckToken t now = true ↔
      ((t.CreatedAt : Rat) < now ∧
        now < ((t.CreatedAt + t.ExpiresIn : Int) : Rat)) := by
  have hw : int64wrap (t.CreatedAt + t.ExpiresIn) =
      t.CreatedAt + t.ExpiresIn := by
    unfold int64wrap
    rw [Int.emod_eq_of_lt (by omega) (by omega)]
    omega
  unfold CheckToken TokenTimes
  rw [hw]
  simp [Bool.and_eq_true, decide_eq_true_iff]

/-- C3 witness: the amended statement applied to the example token at
now = one half second past creation. -/
theorem checkToken_iff_strict_interval_witness :
    CheckToken tokenExample (1 / 2) = true ↔
      ((tokenExample.CreatedAt : Rat) < 1 / 2 ∧
        (1 / 2 : Rat) <
          ((tokenExample.CreatedAt + tokenExample.ExpiresIn : Int) : Rat)) :=
  checkToken_iff_strict_interval tokenExample (1 / 2)
    (by norm_num [tokenExample]) (by norm_num [tokenExample])

/-- C4: when proto.Unmarshal fails on the body, GetVitals propagates the
error unchanged and produces no aggregate (the error arm of the result
carries no devices). -/
theorem getVitals_error_on_unmarshal_failure
    (unmarshal : List Nat → Except String DevicesWithVitals)
    (body : List Nat) (err : String)
    (h : unmarshal body = .error err) :
    GetVitals unmarshal body = .error err := by
  unfold GetVitals
  rw [h]

/-- C4 witness: a parser that rejects the buffer makes GetVitals fail with
that error. -/
theorem getVitals_error_on_unmarshal_failure_witness :
    GetVitals (fun _ => .error "proto: cannot parse invalid wire-format data")
        [0] =
      .error "proto: cannot parse invalid wire-format data" :=
  getVitals_error_on_unmarshal_failure _ [0] _ rfl

/-- C5: for every recognized device entry (any of the eleven classes)
carrying a vital whose name is not in that class table, GetVitals
decodes to exactly the aggregate it would produce without that vital
(so all recognized names are assigned and the unknown one leaves its
slot untouched), logs the unknown name in the class format, and
returns without error. -/
theorem getVitals_unknown_vital_name_skipped_and_logged
    (e : SiteControllerConnectedDeviceWithVitals)
    (vs1 vs2 : List DeviceVital) (b : DeviceVital)
    (hrec : routeOf e ≠ Route.dropped)
    (hv : e.vitals = vs1 ++ b :: vs2)
    (hb : b.name ∉ classKnownNames (routeOf e)) :
    (getVitalsFromDevices { devices := [e] }).1 =
        (getVitalsFromDevices
          { devices := [{ e with vitals := vs1 ++ vs2 }] }).1 ∧
    classUnknownMsg (routeOf e) b.name
        ∈ (getVitalsFromDevices { devices := [e] }).2 ∧
    GetVitals (fun _ => Except.ok { devices := [e] }) [] =
        Except.ok (getVitalsFromDevices { devices := [e] }) := by
  have he2 : routeOf { e with vitals := vs1 ++ vs2 } = routeOf e := rfl
  refine ⟨?_, ?_, rfl⟩
  · rw [show getVitalsFromDevices { devices := [e] } =
        processDevice default e from rfl,
      show getVitalsFromDevices
          { devices := [{ e with vitals := vs1 ++ vs2 }] }
        = processDevice default { e with vitals := vs1 ++ vs2 } from rfl,
      processDevice_eq, processDevice_eq]
    show routeUpdate default e =
      routeUpdate default { e with vitals := vs1 ++ vs2 }
    unfold routeUpdate
    rw [he2]
    cases hr : routeOf e
    · rw [hr] at hb
      have hmk : mkSTSTSM { e with vitals := vs1 ++ vs2 } = mkSTSTSM e := by
        unfold mkSTSTSM
        rw [show ({ e with vitals := vs1 ++ vs2 } :
              SiteControllerConnectedDeviceWithVitals).vitals
            = vs1 ++ vs2 from rfl,
          show mkDeviceCommon { e with vitals := vs1 ++ vs2 }
            = mkDeviceCommon e from rfl,
          hv,
          foldVitals_skip_vital assignSTSTSM b _
            (fun r => assignSTSTSM_unknown r b hb)]
      rw [hmk]
    · rw [hr] at hb
      have hmk : mkTESYNC { e with vitals := vs1 ++ vs2 } = mkTESYNC e := by
        unfold mkTESYNC
        rw [show ({ e with vitals := vs1 ++ vs2 } :
              SiteControllerConnectedDeviceWithVitals).vitals
            = vs1 ++ vs2 from rfl,
          show mkDeviceCommon { e with vitals := vs1 ++ vs2 }
            = mkDeviceCommon e from rfl,
          hv,
          foldVitals_skip_vital assignTESYNC b _
            (fun r => assignTESYNC_unknown r b hb)]
      rw [hmk]
    · rw [hr] at hb
      have hmk : mkTEMSA { e with vitals := vs1 ++ vs2 } = mkTEMSA e := by
        unfold mkTEMSA
        rw [show ({ e with vitals := vs1 ++ vs2 } :
              SiteControllerConnectedDeviceWithVitals).vitals
            = vs1 ++ vs2 from rfl,
          show mkDeviceCommon { e with vitals := vs1 ++ vs2 }
            = mkDeviceCommon e from rfl,
          hv,
          foldVitals_skip_vital assignTEMSA b _
            (fun r => assignTEMSA_unknown r b hb)]
      rw [hmk]
    · rw [hr] at hb
      have hmk : mkTETHC { e with vitals := vs1 ++ vs2 } = mkTETHC e := by
        unfold mkTETHC
        rw [show ({ e with vitals := vs1 ++ vs2 } :
              SiteControllerConnectedDeviceWithVitals).vitals
            = vs1 ++ vs2 from rfl,
          show mkDeviceCommon { e with vitals := vs1 ++ vs2 }
            = mkDeviceCommon e from rfl,
          hv,
          foldVitals_skip_vital assignTETHC b _
            (fun r => assignTETHC_unknown r b hb)]
      rw [hmk]
    · rw [hr] at hb
      have hmk : mkTEPOD { e with vitals := vs1 ++ vs2 } = mkTEPOD e := by
        unfold mkTEPOD
        rw [show ({ e with vitals := vs1 ++ vs2 } :
              SiteControllerConnectedDeviceWithVitals).vitals
            = vs1 ++ vs2 from rfl,
          show mkDeviceCommon { e with vitals := vs1 ++ vs2 }
            = mkDeviceCommon e from rfl,
          hv,
          foldVitals_skip_vital assignTEPOD b _
            (fun r => assignTEPOD_unknown r b hb)]
      rw [hmk]
    · rw [hr] at hb
      have hmk : mkTEPINV { e with vitals := vs1 ++ vs2 } = mkTEPINV e := by
        unfold mkTEPINV
        rw [show ({ e with vitals := vs1 ++ vs2 } :
              SiteControllerConnectedDeviceWithVitals).vitals
            = vs1 ++ vs2 from rfl,
          show mkDeviceCommon { e with vitals := vs1 ++ vs2 }
            = mkDeviceCommon e from rfl,
          hv,
          foldVitals_skip_vital assignTEPINV b _
            (fun r => assignTEPINV_unknown r b hb)]
      rw [hmk]
    · rw [hr] at hb
      have hmk : mkPVAC { e with vitals := vs1 ++ vs2 } = mkPVAC e := by
        unfold mkPVAC
        rw [show ({ e with vitals := vs1 ++ vs2 } :
              SiteControllerConnectedDeviceWithVitals).vitals
            = vs1 ++ vs2 from rfl,
          show mkDeviceCommon { e with vitals := vs1 ++ vs2 }
            = mkDeviceCommon e from rfl,
          hv,
          foldVitals_skip_vital assignPVAC b _
            (fun r => assignPVAC_unknown r b hb)]
      rw [hmk]
    · rw [hr] at hb
      have hmk : mkPVS { e with vitals := vs1 ++ vs2 } = mkPVS e := by
        unfold mkPVS
        rw [show ({ e with vitals := vs1 ++ vs2 } :
              SiteControllerConnectedDeviceWithVitals).vitals
            = vs1 ++ vs2 from rfl,
          show mkDeviceCommon { e with vitals := vs1 ++ vs2 }
            = mkDeviceCommon e from rfl,
          hv,
          foldVitals_skip_vital assignPVS b _
            (fun r => assignPVS_unknown r b hb)]
      rw [hmk]
    · rw [hr] at hb
      have hmk : mkTESLAMeter { e with vitals := vs1 ++ vs2 } = mkTESLAMeter e := by
        unfold mkTESLAMeter
        rw [show ({ e with vitals := vs1 ++ vs2 } :
              SiteControllerConnectedDeviceWithVitals).vitals
            = vs1 ++ vs2 from rfl,
          show mkDeviceCommon { e with vitals := vs1 ++ vs2 }
            = mkDeviceCommon e from rfl,
          show tesla0Meter { e with vitals := vs1 ++ vs2 }
              = tesla0Meter e from rfl,
          hv,
          foldVitals_skip_vital assignTESLAMeter b _
            (fun r => assignTESLAMeter_unknown r b)]
      rw [hmk]
    · rw [hr] at hb
      have hmk : mkTESLAPV { e with vitals := vs1 ++ vs2 } = mkTESLAPV e := by
        unfold mkTESLAPV
        rw [show ({ e with vitals := vs1 ++ vs2 } :
              SiteControllerConnectedDeviceWithVitals).vitals
            = vs1 ++ vs2 from rfl,
          show mkDeviceCommon { e with vitals := vs1 ++ vs2 }
            = mkDeviceCommon e from rfl,
          show tesla0PV { e with vitals := vs1 ++ vs2 }
              = tesla0PV e from rfl,
          hv,
          foldVitals_skip_vital assignTESLAPV b _
            (fun r => assignTESLAPV_unknown r b)]
      rw [hmk]
    · rw [hr] at hb
      have hmk : mkNEURIODev { e with vitals := vs1 ++ vs2 } = mkNEURIODev e := by
        unfold mkNEURIODev
        rw [show ({ e with vitals := vs1 ++ vs2 } :
              SiteControllerConnectedDeviceWithVitals).vitals
            = vs1 ++ vs2 from rfl,
          show mkDeviceCommon { e with vitals := vs1 ++ vs2 }
            = mkDeviceCommon e from rfl,
          show ({ e with vitals := vs1 ++ vs2 } :
                SiteControllerConnectedDeviceWithVitals).device
              = e.device from rfl,
          hv,
          foldVitals_skip_vital assignNEURIO b _
            (fun r => assignNEURIO_unknown r b hb)]
      rw [hmk]
    · exact absurd hr hrec
  · rw [show getVitalsFromDevices { devices := [e] } =
        processDevice default e from rfl, processDevice_eq]
    show classUnknownMsg (routeOf e) b.name ∈ deviceLogs e
    unfold deviceLogs
    cases hr : routeOf e
    · rw [hr] at hb
      rw [hv]
      exact foldVitals_mem_vital assignSTSTSM b _
        (fun r => assignSTSTSM_unknown r b hb) vs1 vs2 default
    · rw [hr] at hb
      rw [hv]
      exact foldVitals_mem_vital assignTESYNC b _
        (fun r => assignTESYNC_unknown r b hb) vs1 vs2 default
    · rw [hr] at hb
      rw [hv]
      exact foldVitals_mem_vital assignTEMSA b _
        (fun r => assignTEMSA_unknown r b hb) vs1 vs2 default
    · rw [hr] at hb
      rw [hv]
      exact foldVitals_mem_vital assignTETHC b _
        (fun r => assignTETHC_unknown r b hb) vs1 vs2 default
    · rw [hr] at hb
      rw [hv]
      exact foldVitals_mem_vital assignTEPOD b _
        (fun r => assignTEPOD_unknown r b hb) vs1 vs2 default
    · rw [hr] at hb
      rw [hv]
      exact foldVitals_mem_vital assignTEPINV b _
        (fun r => assignTEPINV_unknown r b hb) vs1 vs2 default
    · rw [hr] at hb
      rw [hv]
      exact foldVitals_mem_vital assignPVAC b _
        (fun r => assignPVAC_unknown r b hb) vs1 vs2 default
    · rw [hr] at hb
      rw [hv]
      exact foldVitals_mem_vital assignPVS b _
        (fun r => assignPVS_unknown r b hb) vs1 vs2 default
    · rw [hr] at hb
      rw [hv]
      exact foldVitals_mem_vital assignTESLAMeter b _
        (fun r => assignTESLAMeter_unknown r b) vs1 vs2 (tesla0Meter e)
    · rw [hr] at hb
      rw [hv]
      exact foldVitals_mem_vital assignTESLAPV b _
        (fun r => assignTESLAPV_unknown r b) vs1 vs2 (tesla0PV e)
    · rw [hr] at hb
      rw [hv]
      exact foldVitals_mem_vital assignNEURIO b _
        (fun r => assignNEURIO_unknown r b hb) vs1 vs2 default
    · exact absurd hr hrec

/-- C5 witness: the statement applied to the TETHC--1 entry with vitals
THC_State, THC_Bogus, THC_AmbientTemp. -/
theorem getVitals_unknown_vital_name_skipped_and_logged_witness :
    (getVitalsFromDevices { devices := [entryTETHCBogus] }).1 =
        (getVitalsFromDevices
          { devices := [{ entryTETHCBogus with
              vitals := [vitalTHCState] ++ [vitalTHCTemp] }] }).1 ∧
    classUnknownMsg (routeOf entryTETHCBogus) vitalTHCBogus.name
        ∈ (getVitalsFromDevices { devices := [entryTETHCBogus] }).2 ∧
    GetVitals (fun _ => Except.ok { devices := [entryTETHCBogus] }) [] =
        Except.ok (getVitalsFromDevices { devices := [entryTETHCBogus] }) :=
  getVitals_unknown_vital_name_skipped_and_logged entryTETHCBogus
    [vitalTHCState] [vitalTHCTemp] vitalTHCBogus (by decide) rfl
    (by decide)

/-- C6: every collection of the output aggregate is exactly the
input-order filter-and-map of the entries routed to that class, so two
devices of the same collection class keep their relative input order in
the output. -/
theorem getVitals_collections_preserve_input_order (d : DevicesWithVitals) :
    (getVitalsFromDevices d).1.TETHCs =
        (d.devices.filter
          (fun e => decide (routeOf e = Route.tethc))).map mkTETHC ∧
    (getVitalsFromDevices d).1.TEPODs =
        (d.devices.filter
          (fun e => decide (routeOf e = Route.tepod))).map mkTEPOD ∧
    (getVitalsFromDevices d).1.TEPINVs =
        (d.devices.filter
          (fun e => decide (routeOf e = Route.tepinv))).map mkTEPINV ∧
    (getVitalsFromDevices d).1.PVACs =
        (d.devices.filter
          (fun e => decide (routeOf e = Route.pvac))).map mkPVAC ∧
    (getVitalsFromDevices d).1.PVSs =
        (d.devices.filter
          (fun e => decide (routeOf e = Route.pvs))).map mkPVS ∧
    (getVitalsFromDevices d).1.TESLAMeters =
        (d.devices.filter
          (fun e => decide (routeOf e = Route.teslaMeter))).map mkTESLAMeter ∧
    (getVitalsFromDevices d).1.NEURIOs =
        (d.devices.filter
          (fun e => decide (routeOf e = Route.neurio))).map mkNEURIODev ∧
    (getVitalsFromDevices d).1.TESLAPVs =
        (d.devices.filter
          (fun e => decide (routeOf e = Route.teslaPV))).map mkTESLAPV := by
  refine ⟨?_, ?_, ?_, ?_, ?_, ?_, ?_, ?_⟩
  · exact loop_collection _ _ _ routeUpdate_TETHCs d.devices (default, [])
  · exact loop_collection _ _ _ routeUpdate_TEPODs d.devices (default, [])
  · exact loop_collection _ _ _ routeUpdate_TEPINVs d.devices (default, [])
  · exact loop_collection _ _ _ routeUpdate_PVACs d.devices (default, [])
  · exact loop_collection _ _ _ routeUpdate_PVSs d.devices (default, [])
  · exact loop_collection _ _ _ routeUpdate_TESLAMeters d.devices
      (default, [])
  · exact loop_collection _ _ _ routeUpdate_NEURIOs d.devices (default, [])
  · exact loop_collection _ _ _ routeUpdate_TESLAPVs d.devices (default, [])

/-- C7: the decode is a pure function of the buffer — running it twice on
the same input yields structurally equal results (the embedding consults
no state besides its arguments, mirroring the Go decode loop, which reads
no package-level mutable variables). -/
theorem getVitals_deterministic
    (unmarshal : List Nat → Except String DevicesWithVitals)
    (body : List Nat) :
    GetVitals unmarshal body = GetVitals unmarshal body := rfl

/-- C8: a TESLA-prefixed entry is appended to TESLAMeters when the
meter-attributes arm is present, to TESLAPVs (with NameplateRealPowerW
copied from the extension) when the PV-inverter-attributes arm is
present, and with neither arm it is logged as an unknown TESLA device and
appended to neither collection. -/
theorem getVitals_tesla_disambiguation (vd : VitalDevices)
    (e : SiteControllerConnectedDeviceWithVitals) :
    (routeOf e = Route.teslaMeter →
      (processDevice vd e).1.TESLAMeters =
          vd.TESLAMeters ++ [mkTESLAMeter e] ∧
      (processDevice vd e).1.TESLAPVs = vd.TESLAPVs) ∧
    (∀ p : PVInverterAttributes, routeOf e = Route.teslaPV →
      getPvInverterAttributes e.device.device.deviceAttributes = some p →
      (processDevice vd e).1.TESLAPVs = vd.TESLAPVs ++
          [{ Common := mkDeviceCommon e,
             NameplateRealPowerW := p.nameplateRealPowerW }] ∧
      (processDevice vd e).1.TESLAMeters = vd.TESLAMeters) ∧
    (routeOf e = Route.dropped →
      strStartsWith "TESLA" (mkDeviceCommon e).Din = true →
      processDevice vd e = (vd, ["Unknown TESLA device in vitals\n"])) := by
  refine ⟨?_, ?_, ?_⟩
  · intro hr
    rw [processDevice_eq]
    constructor
    · show (routeUpdate vd e).TESLAMeters = _
      rw [routeUpdate_TESLAMeters, if_pos hr]
    · show (routeUpdate vd e).TESLAPVs = _
      rw [routeUpdate_TESLAPVs, if_neg (by simp [hr])]
      simp
  · intro p hr hp
    rw [processDevice_eq]
    constructor
    · show (routeUpdate vd e).TESLAPVs = _
      rw [routeUpdate_TESLAPVs, if_pos hr]
      have hrec : mkTESLAPV e =
          { Common := mkDeviceCommon e,
            NameplateRealPowerW := p.nameplateRealPowerW } := by
        unfold mkTESLAPV tesla0PV
        rw [hp, foldVitals_assignTESLAPV_fst]
        rfl
      rw [hrec]
    · show (routeUpdate vd e).TESLAMeters = _
      rw [routeUpdate_TESLAMeters, if_neg (by simp [hr])]
      simp
  · intro hr htesla
    rw [processDevice_eq]
    unfold routeUpdate deviceLogs
    rw [hr]
    simp [htesla]

/-- C8 witness: the TESLA--1 entry with a PV-inverter extension of
nameplate 5000 and zero vitals yields one TESLAPV entry with
NameplateRealPowerW 5000 and no TESLAMeters entries. -/
theorem getVitals_tesla_disambiguation_witness :
    (processDevice default entryTeslaPV).1.TESLAPVs =
        (default : VitalDevices).TESLAPVs ++
          [{ Common := mkDeviceCommon entryTeslaPV,
             NameplateRealPowerW := (5000 : Nat) }] ∧
    (processDevice default entryTeslaPV).1.TESLAMeters =
        (default : VitalDevices).TESLAMeters :=
  (getVitals_tesla_disambiguation default entryTeslaPV).2.1
    { nameplateRealPowerW := 5000 } rfl rfl

/-- C9: each singleton slot of the output aggregate holds the record
decoded from the last entry of that class in input order (the default
zero record when there is none) — later entries overwrite earlier ones
and the decode never fails on duplicates. -/
theorem getVitals_singleton_last_write_wins (d : DevicesWithVitals) :
    ((getVitalsFromDevices d).1.STSTSM =
      match (d.devices.filter
          (fun e => decide (routeOf e = Route.ststsm))).getLast? with
      | some x => mkSTSTSM x
      | none => default) ∧
    ((getVitalsFromDevices d).1.TESYNC =
      match (d.devices.filter
          (fun e => decide (routeOf e = Route.tesync))).getLast? with
      | some x => mkTESYNC x
      | none => default) ∧
    ((getVitalsFromDevices d).1.TEMSA =
      match (d.devices.filter
          (fun e => decide (routeOf e = Route.temsa))).getLast? with
      | some x => mkTEMSA x
      | none => default) := by
  refine ⟨?_, ?_, ?_⟩
  · exact loop_singleton _ _ _ routeUpdate_STSTSM d.devices (default, [])
  · exact loop_singleton _ _ _ routeUpdate_TESYNC d.devices (default, [])
  · exact loop_singleton _ _ _ routeUpdate_TEMSA d.devices (default, [])

/-- C10: a grid-status response that fetches and parses successfully but
whose grid_status string is none of the three known constants is mapped
to GridStatusUnknown with a nil error. -/
theorem getGridStatus_unknown_string_maps_to_unknown
    (fetch : Except String (List Nat))
    (uj : List Nat → Except String GridStatusResponse)
    (body : List Nat) (gsr : GridStatusResponse)
    (hf : fetch = .ok body) (hu : uj body = .ok gsr)
    (h1 : gsr.GridStatus ≠ gridStatusUpString)
    (h2 : gsr.GridStatus ≠ gridStatusDownString)
    (h3 : gsr.GridStatus ≠ gridStatusTransitionString) :
    GetGridStatus fetch uj = (GridStatus.GridStatusUnknown, none) := by
  subst hf
  simp only [GetGridStatus, hu]
  rw [if_neg h1, if_neg h2, if_neg h3]

/-- C10 witness: an unrecognized grid-status string yields
GridStatusUnknown and a nil error. -/
theorem getGridStatus_unknown_string_maps_to_unknown_witness :
    GetGridStatus (Except.ok [0])
        (fun _ => Except.ok { GridStatus := "SomethingElse" }) =
      (GridStatus.GridStatusUnknown, none) :=
  getGridStatus_unknown_string_maps_to_unknown (Except.ok [0]) _ [0]
    { GridStatus := "SomethingElse" } rfl rfl
    (by decide) (by decide) (by decide)

end Gotesla
